import Mathlib

/-!
Verification of the WhatsApp ordering bot (Lomaro Pizza): a shallow embedding
of the repository's conversation state machine (src/handlers.py), pricing and
promo logic (src/flow_handlers.py), flow screen router (src/flow_manager.py)
and the encrypted flow-endpoint codec (src/main.py), with theorems settling
the frozen specification claims.

Modelling conventions:
* Python byte strings are `List Nat` with every element `< 256`.
* Python numbers (int/float prices and totals) are modelled as `ℚ` with exact
  arithmetic; `round(x, 2)` is modelled by `round2` (round-half-to-even, as
  Python's `round` behaves on representable values).
* MongoDB documents become structures; `dict.get(k, d)` becomes an `Option`
  field read with `.getD d`; collections become lists; `insert_one` is
  modelled by returning the inserted document.
* External library primitives (the `cryptography` AES-GCM cipher, RSA-OAEP
  key unwrap, `json.loads`) are parameters of the embedding: AES-GCM is any
  keystream-XOR cipher with a ciphertext MAC appended as the tag, which is
  the shape of GCM; the repository's own logic (field extraction, base64,
  IV inversion, tag split, dispatch) is translated from the source.
-/

namespace WhatsAppBot

/-! ## Python string primitives (ASCII-faithful models of str.strip/lower/…) -/

/-- Whitespace as Python's `str.strip()` removes it (ASCII subset). -/
def pyIsSpace (c : Char) : Bool :=
  c = ' ' ∨ c = '\t' ∨ c = '\n' ∨ c = '\r'

/-- Drop leading whitespace from a character list. -/
def dropLeadingSpace (l : List Char) : List Char :=
  l.dropWhile pyIsSpace

/-- `str.strip()`: drop leading and trailing whitespace. -/
def pyStrip (s : String) : String :=
  ⟨(dropLeadingSpace (dropLeadingSpace s.data).reverse).reverse⟩

/-- ASCII lowering of one character (`str.lower()` on the ASCII range;
the keyword sets the handlers compare against are all ASCII). -/
def pyLowerChar (c : Char) : Char :=
  if 'A' ≤ c ∧ c ≤ 'Z' then Char.ofNat (c.toNat + 32) else c

/-- `str.lower()` (ASCII range). -/
def pyLower (s : String) : String :=
  ⟨s.data.map pyLowerChar⟩

/-- `normalize_text` from src/handlers.py: `(text or "").strip().lower()`. -/
def normalize_text (text : String) : String :=
  pyLower (pyStrip text)

/-- Python slicing `s[-n:]`: the last `n` characters. -/
def pyTakeRight (s : String) (n : Nat) : String :=
  ⟨s.data.drop (s.data.length - n)⟩

/-- `str.replace(pat, "")` for a single-character pattern: removes every
occurrence of that character. -/
def pyRemoveChar (c : Char) (s : String) : String :=
  ⟨s.data.filter (fun d => d ≠ c)⟩

/-- `str.replace(old, new)` for single-character patterns. -/
def pyReplaceChar (a b : Char) (s : String) : String :=
  ⟨s.data.map (fun d => if d = a then b else d)⟩

/-- Decimal digits of a character list accumulated left to right. -/
def digitsVal (l : List Char) : Nat :=
  l.foldl (fun a c => a * 10 + (c.toNat - 48)) 0

/-- Python `int(text)`: optional sign, then decimal digits, whitespace
stripped; anything else raises `ValueError`, modelled as `none`. -/
def parsePyInt (s : String) : Option Int :=
  let t := (pyStrip s).data
  match t with
  | '-' :: ds => if ds ≠ [] ∧ ds.all Char.isDigit then some (-(digitsVal ds : Int)) else none
  | '+' :: ds => if ds ≠ [] ∧ ds.all Char.isDigit then some ((digitsVal ds : Int)) else none
  | ds => if ds ≠ [] ∧ ds.all Char.isDigit then some ((digitsVal ds : Int)) else none

/-- Python `sep.join(lines)`. -/
def joinWith (sep : String) : List String → String
  | [] => ""
  | [x] => x
  | x :: y :: rest => x ++ sep ++ joinWith sep (y :: rest)

/-- Python rendering of a number in an f-string, for the exact values this
system prints (integral rationals render with no decimal point). -/
def qRender (q : ℚ) : String :=
  if q.den = 1 then toString q.num else toString q

/-- Python rendering of an optional string in an f-string (`None` prints). -/
def pyStr : Option String → String
  | none => "None"
  | some s => s

/-- Python rendering of an optional number in an f-string. -/
def pyNumStr : Option ℚ → String
  | none => "None"
  | some q => qRender q

/-- A Python bytes value: every element is a byte. -/
def Bytes (bs : List Nat) : Prop := ∀ b ∈ bs, b < 256

instance : DecidablePred Bytes := fun bs =>
  inferInstanceAs (Decidable (∀ b ∈ bs, b < 256))

/-! ## Base64 (Python `base64.b64encode` / `b64decode`, standard alphabet) -/

/-- The standard base64 alphabet. -/
def b64Chars : List Char :=
  "ABCDEFGHIJKLMNOPQRSTUVWXYZabcdefghijklmnopqrstuvwxyz0123456789+/".data

/-- The alphabet character of a 6-bit value. -/
def b64Char (n : Nat) : Char := b64Chars.getD n 'A'

/-- Index search in a character list. -/
def charIndexFrom : List Char → Char → Nat → Option Nat
  | [], _, _ => none
  | d :: ds, c, i => if d = c then some i else charIndexFrom ds c (i + 1)

/-- The 6-bit value of an alphabet character (`none` off the alphabet). -/
def b64Index (c : Char) : Option Nat := charIndexFrom b64Chars c 0

/-- base64-encode a byte list (with `=` padding), as a character list. -/
def b64EncodeCore : List Nat → List Char
  | a :: b :: c :: rest =>
      b64Char (a / 4) :: b64Char (a % 4 * 16 + b / 16) ::
      b64Char (b % 16 * 4 + c / 64) :: b64Char (c % 64) :: b64EncodeCore rest
  | [a, b] => [b64Char (a / 4), b64Char (a % 4 * 16 + b / 16), b64Char (b % 16 * 4), '=']
  | [a] => [b64Char (a / 4), b64Char (a % 4 * 16), '=', '=']
  | [] => []

/-- base64-decode a character list (strict RFC 4648 groups; the round-trip
theorems only ever apply it to `b64EncodeCore` output). -/
def b64DecodeCore : List Char → Option (List Nat)
  | [] => some []
  | c1 :: c2 :: c3 :: c4 :: rest =>
    match b64Index c1, b64Index c2 with
    | some x1, some x2 =>
      if c3 = '=' then
        if c4 = '=' ∧ rest = [] then some [x1 * 4 + x2 / 16] else none
      else
        match b64Index c3 with
        | some x3 =>
          if c4 = '=' then
            if rest = [] then some [x1 * 4 + x2 / 16, x2 % 16 * 16 + x3 / 4] else none
          else
            match b64Index c4 with
            | some x4 =>
              match b64DecodeCore rest with
              | some tail =>
                  some ((x1 * 4 + x2 / 16) :: (x2 % 16 * 16 + x3 / 4) :: (x3 % 4 * 64 + x4) :: tail)
              | none => none
            | none => none
        | none => none
    | _, _ => none
  | _ => none

/-- `base64.b64encode(bs).decode("utf-8")`. -/
def b64Encode (bs : List Nat) : String := ⟨b64EncodeCore bs⟩

/-- `base64.b64decode(s)`. -/
def b64Decode (s : String) : Option (List Nat) := b64DecodeCore s.data

theorem b64Index_b64Char {n : Nat} (h : n < 64) : b64Index (b64Char n) = some n := by
  revert h
  revert n
  decide

theorem b64Char_ne_pad {n : Nat} (h : n < 64) : b64Char n ≠ '=' := by
  revert h
  revert n
  decide

theorem b64_roundtrip_core :
    ∀ bs : List Nat, Bytes bs → b64DecodeCore (b64EncodeCore bs) = some bs
  | [], _ => by simp [b64EncodeCore, b64DecodeCore]
  | [a], h => by
    have ha : a < 256 := h a (by simp)
    have h1 : a / 4 < 64 := by omega
    have h2 : a % 4 * 16 < 64 := by omega
    simp [b64EncodeCore, b64DecodeCore, b64Index_b64Char h1, b64Index_b64Char h2]
    omega
  | [a, b], h => by
    have ha : a < 256 := h a (by simp)
    have hb : b < 256 := h b (by simp)
    have h1 : a / 4 < 64 := by omega
    have h2 : a % 4 * 16 + b / 16 < 64 := by omega
    have h3 : b % 16 * 4 < 64 := by omega
    simp [b64EncodeCore, b64DecodeCore, b64Index_b64Char h1, b64Index_b64Char h2,
      b64Index_b64Char h3, b64Char_ne_pad h3]
    omega
  | a :: b :: c :: rest, h => by
    have ha : a < 256 := h a (by simp)
    have hb : b < 256 := h b (by simp)
    have hc : c < 256 := h c (by simp)
    have hrest : Bytes rest := fun x hx => h x (by simp [Bytes] at *; tauto)
    have h1 : a / 4 < 64 := by omega
    have h2 : a % 4 * 16 + b / 16 < 64 := by omega
    have h3 : b % 16 * 4 + c / 64 < 64 := by omega
    have h4 : c % 64 < 64 := by omega
    have ih := b64_roundtrip_core rest hrest
    simp [b64EncodeCore, b64DecodeCore, b64Index_b64Char h1, b64Index_b64Char h2,
      b64Index_b64Char h3, b64Index_b64Char h4, b64Char_ne_pad h3, b64Char_ne_pad h4, ih]
    omega

theorem b64_roundtrip (bs : List Nat) (h : Bytes bs) : b64Decode (b64Encode bs) = some bs :=
  b64_roundtrip_core bs h

/-! ## JSON values and Python `json.dumps` -/

/-- A JSON value, as the handlers build them from Python dicts and lists. -/
inductive JVal where
  | jnull
  | jbool (b : Bool)
  | jnum (q : ℚ)
  | jstr (s : String)
  | jarr (items : List JVal)
  | jobj (fields : List (String × JVal))

/-- JSON string escaping (the characters this system's strings contain). -/
def jsonEscapeChar (c : Char) : List Char :=
  if c = '"' then ['\\', '"']
  else if c = '\\' then ['\\', '\\']
  else if c = '\n' then ['\\', 'n']
  else if c = '\t' then ['\\', 't']
  else if c = '\r' then ['\\', 'r']
  else [c]

/-- A JSON string literal. -/
def jsonStrLit (s : String) : String :=
  ⟨'"' :: ((s.data.map jsonEscapeChar).flatten ++ ['"'])⟩

mutual

/-- Python `json.dumps` with its default separators (`", "` and `": "`). -/
def jsonDumps : JVal → String
  | .jnull => "null"
  | .jbool true => "true"
  | .jbool false => "false"
  | .jnum q => qRender q
  | .jstr s => jsonStrLit s
  | .jarr items => "[" ++ jsonDumpsArr items ++ "]"
  | .jobj fields => "\x7b" ++ jsonDumpsObj fields ++ "\x7d"

/-- Comma-joined array elements. -/
def jsonDumpsArr : List JVal → String
  | [] => ""
  | [x] => jsonDumps x
  | x :: y :: rest => jsonDumps x ++ ", " ++ jsonDumpsArr (y :: rest)

/-- Comma-joined object entries. -/
def jsonDumpsObj : List (String × JVal) → String
  | [] => ""
  | [(k, v)] => jsonStrLit k ++ ": " ++ jsonDumps v
  | (k, v) :: y :: rest => jsonStrLit k ++ ": " ++ jsonDumps v ++ ", " ++ jsonDumpsObj (y :: rest)

end

/-- `str.encode("utf-8")`, via the core UTF-8 encoder. -/
def utf8Bytes (s : String) : List Nat :=
  (s.data.map (fun c => (String.utf8EncodeChar c).map UInt8.toNat)).flatten

theorem utf8Bytes_bytes (s : String) : Bytes (utf8Bytes s) := by
  intro b hb
  simp only [utf8Bytes, List.mem_flatten, List.mem_map] at hb
  obtain ⟨l, ⟨⟨c, _, rfl⟩, hbl⟩⟩ := hb
  obtain ⟨u, _, rfl⟩ := List.mem_map.mp hbl
  exact u.toNat_lt

/-! ## The AES-GCM primitive (the `cryptography` library cipher, parametric)

`Cipher(algorithms.AES(key), modes.GCM(nonce))` is modelled as an arbitrary
keystream-XOR cipher (GCM runs AES in counter mode) together with an
arbitrary MAC of the ciphertext whose output is the 16-byte tag; the
repository code never looks inside either. -/

structure GcmPrim where
  ks : List Nat → List Nat → Nat → Nat
  mac : List Nat → List Nat → List Nat → List Nat

/-- Well-formedness of a cipher primitive: keystream and tag are bytes and
the tag is 16 bytes long, as AES-GCM's are. -/
structure GcmWF (p : GcmPrim) : Prop where
  ks_lt : ∀ key nonce i, p.ks key nonce i < 256
  mac_len : ∀ key nonce ct, (p.mac key nonce ct).length = 16
  mac_bytes : ∀ key nonce ct, Bytes (p.mac key nonce ct)

/-- XOR a byte list against a keystream, starting at position `i`. -/
def xorStreamFrom (f : Nat → Nat) : Nat → List Nat → List Nat
  | _, [] => []
  | i, b :: rest => (b ^^^ f i) :: xorStreamFrom f (i + 1) rest

/-- XOR a byte list against a keystream. -/
def xorStream (f : Nat → Nat) (bs : List Nat) : List Nat := xorStreamFrom f 0 bs

theorem xorStreamFrom_length (f : Nat → Nat) :
    ∀ (i : Nat) (bs : List Nat), (xorStreamFrom f i bs).length = bs.length
  | _, [] => rfl
  | i, _ :: rest => by simp [xorStreamFrom, xorStreamFrom_length f (i + 1) rest]

theorem xorStreamFrom_involutive (f : Nat → Nat) :
    ∀ (i : Nat) (bs : List Nat), xorStreamFrom f i (xorStreamFrom f i bs) = bs
  | _, [] => rfl
  | i, b :: rest => by
    simp [xorStreamFrom, xorStreamFrom_involutive f (i + 1) rest, Nat.xor_assoc]

theorem xorStream_involutive (f : Nat → Nat) (bs : List Nat) :
    xorStream f (xorStream f bs) = bs :=
  xorStreamFrom_involutive f 0 bs

theorem xorStreamFrom_bytes (f : Nat → Nat) (hf : ∀ i, f i < 256) :
    ∀ (i : Nat) (bs : List Nat), Bytes bs → Bytes (xorStreamFrom f i bs)
  | _, [], _ => by intro b hb; simp [xorStreamFrom] at hb
  | i, b :: rest, h => by
    intro x hx
    simp only [xorStreamFrom, List.mem_cons] at hx
    rcases hx with rfl | hx
    · have h1 : b < 2 ^ 8 := h b (by simp)
      have h2 : f i < 2 ^ 8 := hf i
      exact Nat.xor_lt_two_pow h1 h2
    · exact xorStreamFrom_bytes f hf (i + 1) rest (fun y hy => h y (by simp [hy])) x hx

/-- GCM encryption: ciphertext body with the tag appended
(`encryptor.update(...) + encryptor.finalize()`, then `encryptor.tag`). -/
def gcmEncrypt (p : GcmPrim) (key nonce pt : List Nat) : List Nat :=
  let ct := xorStream (p.ks key nonce) pt
  ct ++ p.mac key nonce ct

/-- GCM decryption given an explicit tag (`modes.GCM(iv, tag)`): the tag is
authenticated before any plaintext is released; a mismatch raises
`InvalidTag`, modelled as `none`. -/
def gcmDecrypt (p : GcmPrim) (key nonce body tag : List Nat) : Option (List Nat) :=
  if p.mac key nonce body = tag then some (xorStream (p.ks key nonce) body) else none

/-! ## The flow transport codec (src/main.py) -/

/-- The IV inversion from `encrypt_response` (src/main.py lines 99-102):
`flipped_iv.append(byte ^ 0xFF)` for every IV byte. -/
def flipIV (iv : List Nat) : List Nat := iv.map (fun b => b ^^^ 0xFF)

/-- `encrypt_response` (src/main.py lines 96-118): AES-GCM-encrypt the
JSON-serialized response with the same symmetric key and the flipped IV,
append the GCM tag, base64-encode. -/
def encrypt_response (p : GcmPrim) (response : JVal) (aes_key iv : List Nat) : String :=
  b64Encode (gcmEncrypt p aes_key (flipIV iv) (utf8Bytes (jsonDumps response)))

/-- The AES-GCM step of `decrypt_request` (src/main.py lines 77-86): the
trailing 16 bytes of the flow data are the auth tag, the rest the body. -/
def decryptFlowData (p : GcmPrim) (aes_key iv flow_data : List Nat) : Option (List Nat) :=
  let body := flow_data.take (flow_data.length - 16)
  let tag := flow_data.drop (flow_data.length - 16)
  gcmDecrypt p aes_key iv body tag

theorem gcm_roundtrip (p : GcmPrim) (hp : GcmWF p) (key nonce pt : List Nat) :
    decryptFlowData p key nonce (gcmEncrypt p key nonce pt) = some pt := by
  have hlen : (xorStream (p.ks key nonce) pt).length = pt.length :=
    xorStreamFrom_length (p.ks key nonce) 0 pt
  have hmac := hp.mac_len key nonce (xorStream (p.ks key nonce) pt)
  simp only [decryptFlowData, gcmEncrypt, List.length_append, hmac]
  have htake :
      (xorStream (p.ks key nonce) pt ++ p.mac key nonce (xorStream (p.ks key nonce) pt)).take
        (xorStream (p.ks key nonce) pt).length = xorStream (p.ks key nonce) pt :=
    List.take_left _ _
  have hdrop :
      (xorStream (p.ks key nonce) pt ++ p.mac key nonce (xorStream (p.ks key nonce) pt)).drop
        (xorStream (p.ks key nonce) pt).length = p.mac key nonce (xorStream (p.ks key nonce) pt) :=
    List.drop_left _ _
  have harith : (xorStream (p.ks key nonce) pt).length + 16 - 16 =
      (xorStream (p.ks key nonce) pt).length := by omega
  rw [harith, htake, hdrop, gcmDecrypt, if_pos rfl, xorStream_involutive]

/-! ## The chat state machine (src/handlers.py)

`LANGUAGE_STRINGS` keys become an inductive type, the two tables total
functions; `get_text` keeps its fall-back-to-English semantics. -/

inductive LKey where
  | welcome | select_language | invalid_language | select_category
  | reply_with_category | back_to_menu | invalid_category | invalid_input
  | add_more | yes_add_more | no_checkout | ask_name | ask_address
  | order_summary | is_correct | yes_confirm | no_cancel | order_confirmed
  | order_id | total | address | est_time | thank_you | order_cancelled
  | default_greeting | please_send_name | please_send_address | how_many
  | select_size | reply_with_size | invalid_size | invalid_qty
  | qty_must_be_one | qty_max_hundred | invalid_item | invalid_deal
  | special_deals | no_deals | reply_with_deal | go_back_menu | no_items
  | reply_with_item | qty_invalid | your_cart | subtotal | name_label
  | phone_label
deriving DecidableEq

/-- `LANGUAGE_STRINGS["en"]` (src/handlers.py lines 14-66). -/
def enText : LKey → String
  | .welcome => "🍕 *Welcome to Lomaro Pizza!* 🍕\n*Where Every Slice Feels Special*"
  | .select_language => "Select your language / اپنی زبان منتخب کریں\n\n1️⃣ English\n2️⃣ اردو (Urdu)"
  | .invalid_language => "❌ Please reply with 1 for English or 2 for Urdu.\n❌ براہ کرم 1 یا 2 منتخب کریں۔"
  | .select_category => "📋 *Select a Category:*"
  | .reply_with_category => "Reply with category number (e.g., `1` for first category)"
  | .back_to_menu => "Or type `menu` to go back to main menu."
  | .invalid_category => "❌ Invalid category number. Please reply with a number between 1 and"
  | .invalid_input => "❌ Invalid input. Please reply with a category number (1-"
  | .add_more => "Would you like to add more items?"
  | .yes_add_more => "Yes, add more"
  | .no_checkout => "No, proceed to checkout"
  | .ask_name => "📝 Before confirming, please share your *name*.\nExample: `Ali Raza`"
  | .ask_address => "📍 Thanks!\nNow please send your *full address*.\nExample: `Chak #117 Dhanola, Faisalabad`"
  | .order_summary => "📋 *Order Summary:*"
  | .is_correct => "Is this correct?"
  | .yes_confirm => "Yes, confirm order"
  | .no_cancel => "No, cancel"
  | .order_confirmed => "✅ *Order Confirmed!*"
  | .order_id => "Order ID:"
  | .total => "Total:"
  | .address => "📍 Address:"
  | .est_time => "⏱️ Estimated Time: 30-40 minutes"
  | .thank_you => "Thank you for ordering from Lomaro Pizza! 🍕"
  | .order_cancelled => "❌ Order cancelled.\n\nWould you like to start a new order? Reply `menu`."
  | .default_greeting => "👋 Hi there!\n\nTo start ordering, reply:\n`menu`\n\n🍕 Lomaro Pizza\n📞 0326-6263343\n*Where Every Slice Feels Special*"
  | .please_send_name => "Please send your *name* to continue."
  | .please_send_address => "Please send your *delivery address* to continue."
  | .how_many => "How many would you like?\n(Reply with number: 1, 2, 3, etc.)"
  | .select_size => "*Select Size:*"
  | .reply_with_size => "Reply with size number (e.g., `1` for first size)"
  | .invalid_size => "❌ Invalid size number. Please pick between 1 and"
  | .invalid_qty => "❌ Invalid quantity. Please reply with a number."
  | .qty_must_be_one => "❌ Quantity must be at least 1."
  | .qty_max_hundred => "❌ Maximum 100 items per selection."
  | .invalid_item => "❌ Invalid item number. Please pick a valid number."
  | .invalid_deal => "❌ Invalid deal number. Please pick a valid number."
  | .special_deals => "🎁 *Special Deals* 🎁"
  | .no_deals => "No deals available right now."
  | .reply_with_deal => "Reply with deal number (e.g., `1` for first deal)"
  | .go_back_menu => "Or reply `menu` to go back to main menu."
  | .no_items => "No items available in this category."
  | .reply_with_item => "Reply with item number (e.g., `1` for first item)"
  | .qty_invalid => "❌ Invalid input. Please reply with a deal number."
  | .your_cart => "🛒 *Your Cart:*"
  | .subtotal => "*Subtotal: Rs."
  | .name_label => "👤 Name:"
  | .phone_label => "📱 Phone:"

/-- `LANGUAGE_STRINGS["ur"]` (src/handlers.py lines 67-119). -/
def urText : LKey → String
  | .welcome => "🍕 *لوماروں پیزا میں خوش آمدید!* 🍕\n*ذائقے کی بہترین قسم*"
  | .select_language => "اپنی زبان منتخب کریں / Select your language\n\n1️⃣ English\n2️⃣ اردو (Urdu)"
  | .invalid_language => "❌ براہ کرم 1 یا 2 منتخب کریں۔\n❌ Please reply with 1 or 2."
  | .select_category => "📋 *کیٹیگری منتخب کریں:*"
  | .reply_with_category => "کیٹیگری نمبر کے ساتھ جواب دیں (مثال `1`)"
  | .back_to_menu => "یا مین مینو میں واپس جانے کے لیے `menu` لکھیں۔"
  | .invalid_category => "❌ غلط کیٹیگری نمبر۔ براہ کرم 1 سے درمیان رقم کے ساتھ جواب دیں"
  | .invalid_input => "❌ غلط ان پٹ۔ براہ کرم کیٹیگری نمبر (1-"
  | .add_more => "کیا آپ مزید چیزیں شامل کرنا چاہتے ہیں؟"
  | .yes_add_more => "ہاں، مزید شامل کریں"
  | .no_checkout => "نہیں، چیک آؤٹ کے لیے آگے بڑھیں"
  | .ask_name => "📝 تصدیق سے پہلے براہ کرم اپنا *نام* بتائیں۔\nمثال: `علی رضا`"
  | .ask_address => "📍 شکریہ!\nاب براہ کرم اپنا *مکمل پتہ* بھیجیں۔\nمثال: `چاک #117 ڈھانولا، فیصل آباد`"
  | .order_summary => "📋 *آرڈر کا خلاصہ:*"
  | .is_correct => "کیا یہ درست ہے؟"
  | .yes_confirm => "ہاں، آرڈر کی تصدیق کریں"
  | .no_cancel => "نہیں، منسوخ کریں"
  | .order_confirmed => "✅ *آرڈر کی تصدیق ہو گئی!*"
  | .order_id => "آرڈر ID:"
  | .total => "کل:"
  | .address => "📍 پتہ:"
  | .est_time => "⏱️ متوقع وقت: 30-40 منٹ"
  | .thank_you => "لوماروں پیزا سے آرڈر کرنے کے لیے شکریہ! 🍕"
  | .order_cancelled => "❌ آرڈر منسوخ ہو گیا۔\n\nکیا آپ نیا آرڈر شروع کرنا چاہتے ہیں؟ `menu` لکھیں۔"
  | .default_greeting => "👋 السلام علیکم!\n\nآرڈر شروع کرنے کے لیے لکھیں:\n`menu`\n\n🍕 لوماروں پیزا\n📞 0326-6263343\n*ذائقے کی بہترین قسم*"
  | .please_send_name => "براہ کرم آگے بڑھنے کے لیے اپنا *نام* بھیجیں۔"
  | .please_send_address => "براہ کرم اپنا *ڈیلیوری پتہ* بھیجیں۔"
  | .how_many => "آپ کتنے چاہتے ہیں؟\n(نمبر کے ساتھ جواب دیں: 1, 2, 3, وغیرہ)"
  | .select_size => "*سائز منتخب کریں:*"
  | .reply_with_size => "سائز نمبر کے ساتھ جواب دیں (مثال `1`)"
  | .invalid_size => "❌ غلط سائز نمبر۔ براہ کرم 1 اور درمیان میں منتخب کریں"
  | .invalid_qty => "❌ غلط مقدار۔ براہ کرم نمبر کے ساتھ جواب دیں۔"
  | .qty_must_be_one => "❌ مقدار کم از کم 1 ہونی چاہیے۔"
  | .qty_max_hundred => "❌ زیادہ سے زیادہ 100 چیزیں ہر بار منتخب کریں۔"
  | .invalid_item => "❌ غلط چیز نمبر۔ براہ کرم درست نمبر منتخب کریں۔"
  | .invalid_deal => "❌ غلط ڈیل نمبر۔ براہ کرم درست نمبر منتخب کریں۔"
  | .special_deals => "🎁 *خصوصی ڈیلز* 🎁"
  | .no_deals => "ابھی کوئی ڈیل دستیاب نہیں۔"
  | .reply_with_deal => "ڈیل نمبر کے ساتھ جواب دیں (مثال `1`)"
  | .go_back_menu => "یا مین مینو میں واپس جانے کے لیے `menu` لکھیں۔"
  | .no_items => "اس کیٹیگری میں کوئی چیز دستیاب نہیں۔"
  | .reply_with_item => "چیز نمبر کے ساتھ جواب دیں (مثال `1`)"
  | .qty_invalid => "❌ غلط ان پٹ۔ براہ کرم ڈیل نمبر کے ساتھ جواب دیں۔"
  | .your_cart => "🛒 *آپ کی ٹوکری:*"
  | .subtotal => "*کل رقم: Rs."
  | .name_label => "👤 نام:"
  | .phone_label => "📱 فون:"

/-- `get_text(lang, key)`: `LANGUAGE_STRINGS.get(lang, {}).get(key,
LANGUAGE_STRINGS["en"].get(key, ""))` — unknown or unset languages fall back
to English. -/
def get_text (lang : Option String) (k : LKey) : String :=
  if lang = some "ur" then urText k else enText k

/-- The conversation states stored in `session["state"]`. -/
inductive ChatState where
  | select_language | idle | show_menu | pick_deal | pick_item
  | pick_size | pick_qty | add_more | ask_name | ask_address | confirm_order
deriving DecidableEq

/-- `session["temp_item"]`: the partially-built selection; a missing dict key
is a `none` field (`{}` is the cleared value). -/
structure TempItem where
  category_name : Option String := none
  menu_id : Option String := none
  item_name : Option String := none
  sizes : List (String × ℚ) := []
  size : Option String := none
  unit_price : Option ℚ := none
deriving DecidableEq

/-- One cart entry; a deal line is recognized by the presence of the
`deal_items` key, exactly as the source duck-types it. -/
structure CartLine where
  item_name : Option String
  deal_items : Option (List String)
  size : String
  qty : Int
  unit_price : ℚ
  total_price : ℚ
deriving DecidableEq

/-- A session document from the `sessions` collection. -/
structure ChatSession where
  phone : String
  state : ChatState
  language : Option String
  cart : List CartLine
  temp_item : TempItem
  customer_name : Option String
  customer_address : Option String
deriving DecidableEq

/-- The default session built when `find_one` returns nothing
(src/handlers.py lines 257-265). -/
def defaultSession (phone : String) : ChatSession :=
  { phone := phone, state := ChatState.select_language, language := none, cart := [],
    temp_item := {}, customer_name := none, customer_address := none }

/-- A menu document from the `menus` collection. -/
structure MenuItem where
  oid : String
  name : Option String
  category : Option String
  sizes : List (String × ℚ)
  price : Option ℚ
deriving DecidableEq

instance : Inhabited MenuItem := ⟨⟨"", none, none, [], none⟩⟩

/-- A deal document from the `deals` collection. -/
structure Deal where
  code : Option String
  price : Option ℚ
  items : Option (List String)
deriving DecidableEq

instance : Inhabited Deal := ⟨⟨none, none, none⟩⟩

/-- The Mongo collections the chat handlers read. -/
structure ChatDb where
  menus : List MenuItem
  deals : List Deal

/-- The order document the chat confirm step inserts, together with the
database-generated identifier `str(result.inserted_id)` used in the replies
and notifications. -/
structure ChatOrder where
  order_id : String
  customer_phone : String
  customer_name : Option String
  customer_address : Option String
  items : List CartLine
  total_price : ℚ
  status : String
  created_at : String
  source : String
  language : Option String
deriving DecidableEq

/-- The `sessions` collection. -/
abbrev SessionStore := List ChatSession

/-- `sessions.find_one({"phone": phone})`. -/
def findSession (store : SessionStore) (phone : String) : Option ChatSession :=
  store.find? (fun s => s.phone = phone)

/-- `sessions.update_one({"phone": phone}, {"$set": session}, upsert=True)`. -/
def saveSession : SessionStore → ChatSession → SessionStore
  | [], s => [s]
  | t :: rest, s => if t.phone = s.phone then s :: rest else t :: saveSession rest s

/-- The session `handle_user_message` works on: the stored one, or the
default-initial one when the phone is unseen. -/
def currentSession (store : SessionStore) (phone : String) : ChatSession :=
  (findSession store phone).getD (defaultSession phone)

/-- `enumerate(l, start=i)`. -/
def enumFrom (i : Nat) : List α → List (Nat × α)
  | [] => []
  | x :: rest => (i, x) :: enumFrom (i + 1) rest

/-- `get_all_categories` dedup walk over `menus` (src/handlers.py 132-146);
the accumulator is the `seen` set. -/
def catFold : List MenuItem → List String → List (String × String)
  | [], _ => []
  | m :: rest, seen =>
    match m.category with
    | none => catFold rest seen
    | some cat =>
      if cat = "" ∨ cat ∈ seen then catFold rest seen
      else (pyReplaceChar ' ' '_' (pyLower cat), cat) :: catFold rest (cat :: seen)

/-- `get_all_categories(db)`: unique `(key, name)` category pairs. -/
def get_all_categories (db : ChatDb) : List (String × String) :=
  catFold db.menus []

/-- `get_all_deals(db)`. -/
def get_all_deals (db : ChatDb) : List Deal := db.deals

/-- `get_items_by_category(db, category_name)`:
`menus.find({"category": category_name})`. -/
def get_items_by_category (db : ChatDb) (category_name : Option String) : List MenuItem :=
  db.menus.filter (fun m => m.category = category_name)

/-- Python truthiness of an optional string (`None` and `""` are falsy). -/
def pyTruthyStr : Option String → Bool
  | none => false
  | some s => s ≠ ""

/-- `show_main_menu(db, language)` (src/handlers.py 692-711). -/
def show_main_menu (db : ChatDb) (language : Option String) : String :=
  let categories := get_all_categories db
  joinWith "\n"
    ([get_text language LKey.welcome, "", get_text language LKey.select_category, ""]
      ++ (enumFrom 1 categories).map (fun p => toString p.1 ++ ". " ++ p.2.2)
      ++ [toString (categories.length + 1) ++ ". 🎁 Special Deals", "",
          get_text language LKey.reply_with_category])

/-- `show_deals_menu(deals, language)` (src/handlers.py 714-741). -/
def show_deals_menu (deals : List Deal) (language : Option String) : String :=
  let intro := [get_text language LKey.special_deals, ""]
  if deals = [] then
    joinWith "\n" (intro ++ [get_text language LKey.no_deals, "", get_text language LKey.go_back_menu])
  else
    let dealLines := (enumFrom 1 deals).map (fun p =>
      let code := p.2.code.getD ("Deal " ++ toString p.1)
      let price := p.2.price.getD 0
      let items := p.2.items.getD []
      let items_str := if items = [] then "Multiple items" else joinWith ", " items
      [toString p.1 ++ ". *" ++ code ++ "* — Rs. " ++ qRender price,
       "   📦 Includes: " ++ items_str, ""])
    joinWith "\n" (intro ++ dealLines.flatten
      ++ [get_text language LKey.reply_with_deal, get_text language LKey.go_back_menu])

/-- `show_items_in_category(db, category_name, language)` (src/handlers.py 744-778). -/
def show_items_in_category (db : ChatDb) (category_name : Option String)
    (language : Option String) : String :=
  let items := get_items_by_category db category_name
  let intro := ["*" ++ pyStr category_name ++ "*", ""]
  if items = [] then
    joinWith "\n" (intro ++ [get_text language LKey.no_items, "", get_text language LKey.go_back_menu])
  else
    let itemLines := (enumFrom 1 items).map (fun p =>
      if p.2.sizes ≠ [] then
        toString p.1 ++ ". " ++ pyStr p.2.name ++ " — from Rs. "
          ++ qRender ((p.2.sizes.map Prod.snd).headD 0)
      else
        toString p.1 ++ ". " ++ pyStr p.2.name ++ " — Rs. "
          ++ (match p.2.price with | some q => qRender q | none => "N/A"))
    joinWith "\n" (intro ++ itemLines
      ++ ["", get_text language LKey.reply_with_item, get_text language LKey.go_back_menu])

/-- `show_size_selection(item_name, sizes, language)` (src/handlers.py 791-806). -/
def show_size_selection (item_name : Option String) (sizes : List (String × ℚ))
    (language : Option String) : String :=
  joinWith "\n"
    (["*" ++ pyStr item_name ++ "*", "", get_text language LKey.select_size, ""]
      ++ (enumFrom 1 sizes).map (fun p => toString p.1 ++ ". " ++ p.2.1 ++ " — Rs. " ++ qRender p.2.2)
      ++ ["", get_text language LKey.reply_with_size, get_text language LKey.back_to_menu])

/-- `show_add_more_menu(cart, language)` (src/handlers.py 809-827). -/
def show_add_more_menu (cart : List CartLine) (language : Option String) : String :=
  let cart_summary := get_text language LKey.your_cart ++ "\n\n" ++
    (cart.map (fun item =>
      if item.deal_items.isSome then
        "• " ++ pyStr item.item_name ++ " = Rs. " ++ qRender item.total_price ++ "\n"
      else
        "• " ++ toString item.qty ++ "x " ++ pyStr item.item_name ++ " (" ++ item.size
          ++ ") = Rs. " ++ qRender item.total_price ++ "\n")).foldl (· ++ ·) ""
  let total := (cart.map (fun item => item.total_price)).sum
  cart_summary ++ "\n" ++ get_text language LKey.subtotal ++ " " ++ qRender total ++ "*\n\n"
    ++ get_text language LKey.add_more ++ "\n1️⃣ " ++ get_text language LKey.yes_add_more
    ++ "\n2️⃣ " ++ get_text language LKey.no_checkout

/-- `show_order_summary(cart, phone, customer_name, customer_address, language)`
(src/handlers.py 830-862). -/
def show_order_summary (cart : List CartLine) (phone : String)
    (customer_name customer_address : Option String) (language : Option String) : String :=
  let itemLines := cart.map (fun item =>
    if item.deal_items.isSome then
      ["• " ++ pyStr item.item_name, "  Rs. " ++ qRender item.total_price]
    else
      ["• " ++ toString item.qty ++ "x " ++ pyStr item.item_name ++ " (" ++ item.size ++ ")",
       "  Rs. " ++ qRender item.unit_price ++ " × " ++ toString item.qty
         ++ " = Rs. " ++ qRender item.total_price])
  let total := (cart.map (fun item => item.total_price)).sum
  joinWith "\n"
    ([get_text language LKey.order_summary, ""] ++ itemLines.flatten ++ [""]
      ++ (if pyTruthyStr customer_name then
            [get_text language LKey.name_label ++ " " ++ pyStr customer_name] else [])
      ++ (if pyTruthyStr customer_address then
            [get_text language LKey.address ++ " " ++ pyStr customer_address] else [])
      ++ [get_text language LKey.phone_label ++ " " ++ phone, "",
          "*" ++ get_text language LKey.total ++ " Rs. " ++ qRender total ++ "*", "",
          get_text language LKey.is_correct,
          "1️⃣ " ++ get_text language LKey.yes_confirm,
          "2️⃣ " ++ get_text language LKey.no_cancel])

/-- What one `handle_user_message` call does besides replying: at most one
`update_one` upsert of the caller's session and at most one order insert. -/
structure ChatEffect where
  reply : String
  save : Option ChatSession
  order : Option ChatOrder

/-- The keyword list of the `select_language` state (src/handlers.py 274). -/
def langSelectTriggers : List String :=
  ["hi", "hello", "hey", "salam", "assalam o alaikum", "assalamualaikum",
   "menu", "start", "restart"]

/-- The global restart keyword set (src/handlers.py 299). -/
def restartKeywords : List String := ["menu", "start", "restart", "main menu"]

/-- The greeting keyword set (src/handlers.py 313). -/
def greetKeywords : List String :=
  ["hi", "hello", "hey", "salam", "assalam o alaikum", "assalamualaikum"]

/-- STATE: `select_language` (src/handlers.py 272-296). -/
def st_select_language (session : ChatSession) (text : String) : ChatEffect :=
  if text ∈ langSelectTriggers then
    ⟨get_text (some "en") LKey.welcome ++ "\n\n" ++ get_text (some "en") LKey.select_language,
     none, none⟩
  else if text = "1" then
    ⟨get_text (some "en") LKey.default_greeting,
     some { session with language := some "en", state := ChatState.idle }, none⟩
  else if text = "2" then
    ⟨get_text (some "ur") LKey.default_greeting,
     some { session with language := some "ur", state := ChatState.idle }, none⟩
  else
    ⟨get_text session.language LKey.invalid_language, none, none⟩

/-- STATE: `idle` (src/handlers.py 327-356). -/
def st_idle (db : ChatDb) (session : ChatSession) (text : String) : ChatEffect :=
  if text = "" then ⟨get_text session.language LKey.default_greeting, none, none⟩
  else
    ⟨show_main_menu db session.language,
     some { session with state := ChatState.show_menu, cart := [], temp_item := {} }, none⟩

/-- STATE: `show_menu` (src/handlers.py 358-418). -/
def st_show_menu (db : ChatDb) (session : ChatSession) (text : String) : ChatEffect :=
  if text = "" then ⟨show_main_menu db session.language, none, none⟩
  else
    let categories := get_all_categories db
    let deals := get_all_deals db
    let total_options := categories.length + 1
    match parsePyInt text with
    | none =>
      ⟨get_text session.language LKey.invalid_input ++ toString total_options ++ ").", none, none⟩
    | some n =>
      let category_idx : Int := n - 1
      if category_idx = (categories.length : Int) then
        ⟨show_deals_menu deals session.language,
         some { session with state := ChatState.pick_deal }, none⟩
      else if 0 ≤ category_idx ∧ category_idx < (categories.length : Int) then
        let category_name := (categories.getD category_idx.toNat ("", "")).2
        ⟨show_items_in_category db (some category_name) session.language,
         some { session with
                state := ChatState.pick_item
                temp_item := { category_name := some category_name } }, none⟩
      else
        ⟨get_text session.language LKey.invalid_category ++ " " ++ toString total_options ++ ".",
         none, none⟩

/-- STATE: `pick_deal` (src/handlers.py 420-458). -/
def st_pick_deal (db : ChatDb) (session : ChatSession) (text : String) : ChatEffect :=
  let deals := get_all_deals db
  if text = "" then ⟨show_deals_menu deals session.language, none, none⟩
  else
    match parsePyInt text with
    | none => ⟨get_text session.language LKey.qty_invalid, none, none⟩
    | some n =>
      let deal_idx : Int := n - 1
      if 0 ≤ deal_idx ∧ deal_idx < (deals.length : Int) then
        let deal := deals.getD deal_idx.toNat default
        let deal_code := deal.code.getD ("Deal " ++ toString (deal_idx + 1))
        let deal_price := deal.price.getD 0
        let deal_items := deal.items.getD []
        let cart_item : CartLine :=
          { item_name := some deal_code, deal_items := some deal_items, size := "Deal",
            qty := 1, unit_price := deal_price, total_price := deal_price }
        let cart2 := session.cart ++ [cart_item]
        ⟨show_add_more_menu cart2 session.language,
         some { session with state := ChatState.add_more, cart := cart2, temp_item := {} }, none⟩
      else ⟨get_text session.language LKey.invalid_deal, none, none⟩

/-- STATE: `pick_item` (src/handlers.py 460-506). -/
def st_pick_item (db : ChatDb) (session : ChatSession) (text : String) : ChatEffect :=
  let category_name := session.temp_item.category_name
  if text = "" then ⟨show_items_in_category db category_name session.language, none, none⟩
  else
    match parsePyInt text with
    | none => ⟨get_text session.language LKey.invalid_input, none, none⟩
    | some n =>
      let item_idx : Int := n - 1
      let items := get_items_by_category db category_name
      if 0 ≤ item_idx ∧ item_idx < (items.length : Int) then
        let item := items.getD item_idx.toNat default
        if item.sizes ≠ [] then
          ⟨show_size_selection item.name item.sizes session.language,
           some { session with
                  state := ChatState.pick_size
                  temp_item := { category_name := category_name, menu_id := some item.oid,
                                 item_name := item.name, sizes := item.sizes } }, none⟩
        else
          let price := item.price.getD 0
          ⟨"✅ *" ++ pyStr item.name ++ "* — Rs. " ++ qRender price ++ "\n\n"
             ++ get_text session.language LKey.how_many ++ "\n\n"
             ++ get_text session.language LKey.back_to_menu,
           some { session with
                  state := ChatState.pick_qty
                  temp_item := { category_name := category_name, menu_id := some item.oid,
                                 item_name := item.name, unit_price := some price } }, none⟩
      else ⟨get_text session.language LKey.invalid_item, none, none⟩

/-- STATE: `pick_size` (src/handlers.py 508-533). -/
def st_pick_size (session : ChatSession) (text : String) : ChatEffect :=
  let sizes := session.temp_item.sizes
  let size_list := sizes.map Prod.fst
  if text = "" then
    ⟨show_size_selection session.temp_item.item_name sizes session.language, none, none⟩
  else
    match parsePyInt text with
    | none => ⟨get_text session.language LKey.invalid_qty, none, none⟩
    | some n =>
      let size_idx : Int := n - 1
      if 0 ≤ size_idx ∧ size_idx < (size_list.length : Int) then
        let chosen_size := size_list.getD size_idx.toNat ""
        let unit_price := (sizes.find? (fun p => p.1 = chosen_size)).map Prod.snd
        ⟨"📦 *" ++ pyStr session.temp_item.item_name ++ "* (" ++ chosen_size ++ ") — Rs. "
           ++ pyNumStr unit_price ++ "\n\n" ++ get_text session.language LKey.how_many
           ++ "\n\n" ++ get_text session.language LKey.back_to_menu,
         some { session with
                state := ChatState.pick_qty
                temp_item := { session.temp_item with
                               size := some chosen_size
                               unit_price := unit_price } }, none⟩
      else
        ⟨get_text session.language LKey.invalid_size ++ " " ++ toString size_list.length ++ ".",
         none, none⟩

/-- STATE: `pick_qty` (src/handlers.py 535-571). -/
def st_pick_qty (session : ChatSession) (text : String) : ChatEffect :=
  if text = "" then
    ⟨get_text session.language LKey.how_many ++ "\n\n"
       ++ get_text session.language LKey.back_to_menu, none, none⟩
  else
    match parsePyInt text with
    | none => ⟨get_text session.language LKey.invalid_qty, none, none⟩
    | some qty =>
      if qty ≤ 0 then ⟨get_text session.language LKey.qty_must_be_one, none, none⟩
      else if qty > 100 then ⟨get_text session.language LKey.qty_max_hundred, none, none⟩
      else
        let unit_price := session.temp_item.unit_price.getD 0
        let total_price := unit_price * (qty : ℚ)
        let cart_item : CartLine :=
          { item_name := session.temp_item.item_name, deal_items := none,
            size := session.temp_item.size.getD "N/A", qty := qty,
            unit_price := unit_price, total_price := total_price }
        let cart2 := session.cart ++ [cart_item]
        ⟨show_add_more_menu cart2 session.language,
         some { session with state := ChatState.add_more, cart := cart2, temp_item := {} }, none⟩

/-- STATE: `add_more` (src/handlers.py 573-594). -/
def st_add_more (db : ChatDb) (session : ChatSession) (text : String) : ChatEffect :=
  if text ∈ ["1", "yes", "y"] then
    ⟨show_main_menu db session.language,
     some { session with state := ChatState.show_menu, temp_item := {} }, none⟩
  else if text ∈ ["2", "no", "n"] then
    ⟨get_text session.language LKey.ask_name,
     some { session with state := ChatState.ask_name }, none⟩
  else ⟨show_add_more_menu session.cart session.language, none, none⟩

/-- STATE: `ask_name` (src/handlers.py 596-608); the raw body is stored
trimmed, not lowercased. -/
def st_ask_name (session : ChatSession) (text text_body : String) : ChatEffect :=
  if text = "" then ⟨get_text session.language LKey.please_send_name, none, none⟩
  else
    ⟨get_text session.language LKey.ask_address,
     some { session with
            customer_name := some (pyStrip text_body)
            state := ChatState.ask_address }, none⟩

/-- STATE: `ask_address` (src/handlers.py 610-622). -/
def st_ask_address (session : ChatSession) (text text_body phone : String) : ChatEffect :=
  if text = "" then ⟨get_text session.language LKey.please_send_address, none, none⟩
  else
    let s2 := { session with
                customer_address := some (pyStrip text_body)
                state := ChatState.confirm_order }
    ⟨show_order_summary s2.cart phone s2.customer_name s2.customer_address session.language,
     some s2, none⟩

/-- STATE: `confirm_order` (src/handlers.py 624-686); `genId` is the
database-generated `inserted_id` of the order insert, `nowIso` the
`datetime.utcnow().isoformat()` timestamp. -/
def st_confirm_order (session : ChatSession) (text phone genId nowIso : String) : ChatEffect :=
  if text ∈ ["1", "yes", "y"] then
    let total := (session.cart.map (fun item => item.total_price)).sum
    let order : ChatOrder :=
      { order_id := genId, customer_phone := phone, customer_name := session.customer_name,
        customer_address := session.customer_address, items := session.cart,
        total_price := total, status := "new", created_at := nowIso,
        source := "whatsapp", language := session.language }
    ⟨get_text session.language LKey.order_confirmed ++ "\n\n"
       ++ get_text session.language LKey.order_id ++ " `" ++ genId ++ "`\n"
       ++ get_text session.language LKey.total ++ " Rs. " ++ qRender total ++ "\n\n"
       ++ get_text session.language LKey.address ++ " " ++ pyStr session.customer_address ++ "\n"
       ++ get_text session.language LKey.est_time ++ "\n\n"
       ++ get_text session.language LKey.thank_you,
     some { session with state := ChatState.idle, cart := [], temp_item := {} }, some order⟩
  else if text ∈ ["2", "no", "n"] then
    ⟨get_text session.language LKey.order_cancelled,
     some { session with state := ChatState.idle, cart := [], temp_item := {} }, none⟩
  else
    ⟨show_order_summary session.cart phone session.customer_name session.customer_address
       session.language, none, none⟩

/-- The visible outcome of one `handle_user_message` call: the reply, the
`sessions` collection afterwards, and the orders inserted. -/
structure ChatStep where
  reply : String
  store : SessionStore
  orders : List ChatOrder

/-- `handle_user_message(text_body, db, phone)` (src/handlers.py 246-689):
the session is read (or default-initialized), the global keyword checks run
after the `select_language` state, then the per-state sections. -/
def handle_user_message (db : ChatDb) (genId nowIso : String) (store : SessionStore)
    (text_body phone : String) : ChatStep :=
  let text := normalize_text text_body
  let session := currentSession store phone
  let eff : ChatEffect :=
    if session.state = ChatState.select_language then st_select_language session text
    else if text ∈ restartKeywords then
      ⟨show_main_menu db session.language,
       some { session with state := ChatState.show_menu, cart := [], temp_item := {} }, none⟩
    else if text ∈ greetKeywords then
      ⟨get_text session.language LKey.welcome ++ "\n\n"
         ++ get_text session.language LKey.select_language,
       some { session with state := ChatState.select_language, cart := [], temp_item := {} },
       none⟩
    else if session.state = ChatState.idle then st_idle db session text
    else if session.state = ChatState.show_menu then st_show_menu db session text
    else if session.state = ChatState.pick_deal then st_pick_deal db session text
    else if session.state = ChatState.pick_item then st_pick_item db session text
    else if session.state = ChatState.pick_size then st_pick_size session text
    else if session.state = ChatState.pick_qty then st_pick_qty session text
    else if session.state = ChatState.add_more then st_add_more db session text
    else if session.state = ChatState.ask_name then st_ask_name session text text_body
    else if session.state = ChatState.ask_address then st_ask_address session text text_body phone
    else if session.state = ChatState.confirm_order then
      st_confirm_order session text phone genId nowIso
    else ⟨get_text session.language LKey.default_greeting, none, none⟩
  { reply := eff.reply,
    store := match eff.save with | some s => saveSession store s | none => store,
    orders := eff.order.toList }

/-! ## Pricing and promo validation (src/flow_handlers.py) -/

/-- `str.upper()` (ASCII range). -/
def pyUpperChar (c : Char) : Char :=
  if 'a' ≤ c ∧ c ≤ 'z' then Char.ofNat (c.toNat - 32) else c

/-- `str.upper()` (ASCII range). -/
def pyUpper (s : String) : String :=
  ⟨s.data.map pyUpperChar⟩

/-- Python slicing `s[:n]`. -/
def pyTake (s : String) (n : Nat) : String := ⟨s.data.take n⟩

/-- Floor of a rational, computably (`Int.fdiv` is floor division). -/
def qFloor (x : ℚ) : Int := Int.fdiv x.num x.den

/-- Python's `round` to an integer: round half to even. -/
def roundHalfEven (x : ℚ) : Int :=
  let f := qFloor x
  let r := x - f
  if r < 1 / 2 then f
  else if 1 / 2 < r then f + 1
  else if f % 2 = 0 then f else f + 1

/-- Python `round(x, 2)`. -/
def round2 (x : ℚ) : ℚ := (roundHalfEven (x * 100) : ℚ) / 100

/-- A promo document from the `promo_codes` collection; validity bounds are
epoch instants compared against `datetime.utcnow()`. -/
structure PromoDoc where
  code : String
  valid_from : Option Int := none
  valid_until : Option Int := none
  min_order : Option ℚ := none
  discount_type : Option String := none
  discount_value : Option ℚ := none
deriving DecidableEq

/-- `if valid_from and now < valid_from` (`None` is falsy, datetimes truthy). -/
def beforeWindow (now : Int) : Option Int → Bool
  | some t => decide (now < t)
  | none => false

/-- `if valid_until and now > valid_until`. -/
def afterWindow (now : Int) : Option Int → Bool
  | some t => decide (t < now)
  | none => false

/-- The dict `validate_promo_code` returns. -/
structure PromoResult where
  valid : Bool
  discount : ℚ
  message : String
deriving DecidableEq

/-- `validate_promo_code(db, code, order_subtotal)` (src/flow_handlers.py
234-301): `find_one({"code": code.upper()})`, then the validity window, the
minimum order, and the percentage-or-fixed discount. -/
def validate_promo_code (promos : List PromoDoc) (now : Int) (code : String)
    (order_subtotal : ℚ) : PromoResult :=
  match promos.find? (fun p => p.code = pyUpper code) with
  | none => ⟨false, 0, "Promo code '" ++ code ++ "' not found"⟩
  | some promo =>
    if beforeWindow now promo.valid_from then ⟨false, 0, "Promo code not yet valid"⟩
    else if afterWindow now promo.valid_until then ⟨false, 0, "Promo code has expired"⟩
    else
      let min_order := promo.min_order.getD 0
      if order_subtotal < min_order then
        ⟨false, 0, "Minimum order Rs. " ++ qRender min_order ++ " required"⟩
      else
        let discount_type := promo.discount_type.getD "percentage"
        let discount_value := promo.discount_value.getD 0
        let discount :=
          if discount_type = "percentage" then round2 (order_subtotal * (discount_value / 100))
          else discount_value
        ⟨true, discount, "Promo applied! You saved Rs. " ++ qRender discount⟩

/-- A cart item of the flow transport (`cart_items` entries). -/
structure FlowCartItem where
  item_name : Option String := none
  size : Option String := none
  qty : Option Int := none
  unit_price : Option ℚ := none
  item_total : Option ℚ := none
deriving DecidableEq

/-- The pricing dict `calculate_order_total` returns. -/
structure PricingResult where
  subtotal : ℚ
  discount : ℚ
  tax : ℚ
  total : ℚ
  promo_message : String
deriving DecidableEq

/-- `calculate_order_total(db, cart_items, promo_code)` (src/flow_handlers.py
180-231): sums `item_total` (missing or null is 0), applies a valid promo's
discount, zero-rates tax and rounds everything to 2 decimals. -/
def calculate_order_total (promos : List PromoDoc) (now : Int)
    (cart_items : List FlowCartItem) (promo_code : Option String) : PricingResult :=
  let subtotal := (cart_items.map (fun ci => ci.item_total.getD 0)).sum
  let promoPart : ℚ × String :=
    match promo_code with
    | some code =>
      if code ≠ "" then
        let promo_data := validate_promo_code promos now code subtotal
        if promo_data.valid then (promo_data.discount, promo_data.message)
        else ((0 : ℚ), promo_data.message)
      else ((0 : ℚ), "")
    | none => ((0 : ℚ), "")
  let discount := promoPart.1
  let tax := round2 (subtotal * 0)
  let total := subtotal - discount + tax
  ⟨round2 subtotal, round2 discount, round2 tax, round2 total, promoPart.2⟩

/-- The `order_data` dict built by the endpoint's CONFIRMATION branch
(src/main.py 413-425). -/
structure OrderData where
  customer_phone : String
  customer_name : String
  customer_address : String
  delivery_notes : String
  cart_items : List FlowCartItem
  subtotal : ℚ
  discount : ℚ
  tax : ℚ
  total : ℚ
  payment_method : String
  promo_code : String
deriving DecidableEq

/-- The order document `create_order_from_flow` inserts. -/
structure FlowOrderDoc where
  _id : String
  customer_phone : String
  customer_name : String
  customer_address : String
  delivery_notes : String
  cart_items : List FlowCartItem
  subtotal : ℚ
  discount : ℚ
  tax : ℚ
  total_price : ℚ
  payment_method : String
  promo_code : String
  status : String
  created_at : String
  source : String
  language : String
deriving DecidableEq

/-- The dict `create_order_from_flow` returns. -/
structure CreateOrderResult where
  success : Bool
  order_id : Option String
  message : String
deriving DecidableEq

/-- `create_order_from_flow(db, order_data)` (src/flow_handlers.py 305-359);
`ts` is `datetime.now().strftime('%Y%m%d%H%M%S')` and `nowIso` the
`created_at` timestamp. The stored totals are taken from `order_data` as
supplied, not recomputed from the cart. -/
def create_order_from_flow (ts nowIso : String) (order_data : OrderData) :
    CreateOrderResult × List FlowOrderDoc :=
  let phone := pyRemoveChar ' ' (pyRemoveChar '+' order_data.customer_phone)
  let suffix := pyTakeRight phone 4
  let order_id := "LOM-" ++ ts ++ "-" ++ (if suffix = "" then "0000" else suffix)
  let order_doc : FlowOrderDoc :=
    { _id := order_id
      customer_phone := order_data.customer_phone
      customer_name := order_data.customer_name
      customer_address := order_data.customer_address
      delivery_notes := order_data.delivery_notes
      cart_items := order_data.cart_items
      subtotal := order_data.subtotal
      discount := order_data.discount
      tax := order_data.tax
      total_price := order_data.total
      payment_method := order_data.payment_method
      promo_code := order_data.promo_code
      status := "new"
      created_at := nowIso
      source := "whatsapp_flow"
      language := "en" }
  (⟨true, some order_id, "Order created successfully"⟩, [order_doc])

/-! ## The flow manager's CONFIRMATION screen (src/flow_manager.py) -/

/-- A cart item of the flow-manager transport (`handle_customize_screen`
builds `{item, quantity, addons, price}`). -/
structure FMCartItem where
  item : String := ""
  quantity : Int := 1
  addons : List String := []
  price : ℚ := 0
deriving DecidableEq

/-- The form data `handle_confirmation_screen` reads. -/
structure FMFormData where
  customer_name : Option String := none
  customer_phone : Option String := none
  customer_address : Option String := none
  delivery_notes : Option String := none
  cart_items : List FMCartItem := []
  cart_total : Option ℚ := none
  discount : Option ℚ := none
  final_total : Option ℚ := none
  payment_method : Option String := none
  promo_code : Option String := none
deriving DecidableEq

/-- The order document `handle_confirmation_screen` inserts. -/
structure FMOrderDoc where
  _id : String
  customer_name : String
  customer_phone : String
  customer_address : String
  delivery_notes : String
  cart_items : List FMCartItem
  cart_total : ℚ
  discount : ℚ
  final_total : ℚ
  payment_method : String
  promo_code : String
  status : String
  created_at : String
  source : String
deriving DecidableEq

/-- A screen handler's `{next_screen, data}` result. -/
structure ScreenResult where
  next_screen : Option String
  data : JVal

/-- `handle_confirmation_screen(db, form_data)` (src/flow_manager.py
360-429): trims the contact fields, rejects when any required one is empty
(no insert), else inserts the order `LOM-{ts}-{phone[-4:]}`. -/
def handle_confirmation_screen (ts nowIso : String) (form_data : FMFormData) :
    ScreenResult × List FMOrderDoc :=
  let customer_name := pyStrip (form_data.customer_name.getD "")
  let customer_phone := pyStrip (form_data.customer_phone.getD "")
  let customer_address := pyStrip (form_data.customer_address.getD "")
  let delivery_notes := pyStrip (form_data.delivery_notes.getD "")
  if customer_name = "" ∨ customer_phone = "" ∨ customer_address = "" then
    (⟨some "CONFIRMATION", JVal.jobj [("error", JVal.jstr "Please fill all required fields")]⟩, [])
  else
    let order_id := "LOM-" ++ ts ++ "-" ++ pyTakeRight customer_phone 4
    let final_total := form_data.final_total.getD (form_data.cart_total.getD 0)
    let order_doc : FMOrderDoc :=
      { _id := order_id
        customer_name := customer_name
        customer_phone := customer_phone
        customer_address := customer_address
        delivery_notes := delivery_notes
        cart_items := form_data.cart_items
        cart_total := form_data.cart_total.getD 0
        discount := form_data.discount.getD 0
        final_total := final_total
        payment_method := form_data.payment_method.getD "cod"
        promo_code := form_data.promo_code.getD ""
        status := "new"
        created_at := nowIso
        source := "whatsapp_flow" }
    (⟨some "SUCCESS",
      JVal.jobj [("order_id", JVal.jstr order_id), ("customer_name", JVal.jstr customer_name),
                 ("final_total", JVal.jnum final_total),
                 ("message", JVal.jstr "Order placed successfully")]⟩, [order_doc])

/-! ## The encrypted flow endpoint (src/main.py) -/

/-- The JSON request body of `/whatsapp/flow-endpoint`; the handler only
ever reads the three envelope fields (a `ping` body could carry an `action`
key, which the handler never looks at before decryption). -/
structure FlowBody where
  encrypted_flow_data : Option String := none
  encrypted_aes_key : Option String := none
  initial_vector : Option String := none
  action : Option String := none

/-- The decrypted `data` map, with the keys the endpoint reads. -/
structure FlowData where
  category : Option String := none
  selected_item : Option String := none
  cart_items : Option (List FlowCartItem) := none
  promo_code : Option String := none
  customer_phone : Option String := none
  customer_name : Option String := none
  customer_address : Option String := none
  delivery_notes : Option String := none
  payment_method : Option String := none
  subtotal : Option ℚ := none
  discount : Option ℚ := none
  tax : Option ℚ := none
  total : Option ℚ := none
deriving DecidableEq

/-- The decrypted flow message `{action, screen, data, flow_token}`. -/
structure DecryptedMsg where
  action : Option String := none
  screen : Option String := none
  data : FlowData := {}
deriving DecidableEq

/-- `decrypt_request(body)` (src/main.py 51-94): read the three envelope
fields (a missing one raises `KeyError`), base64-decode them, RSA-OAEP-unwrap
the AES key with the service private key (`rsaDecrypt`), AES-GCM-decrypt
with the inbound IV treating the trailing 16 bytes as the tag, and
`json.loads` the plaintext (`jsonLoads`). Any failure raises, modelled as
`none`. -/
def decrypt_request (p : GcmPrim) (rsaDecrypt : List Nat → Option (List Nat))
    (jsonLoads : List Nat → Option DecryptedMsg) (body : FlowBody) :
    Option (DecryptedMsg × List Nat × List Nat) := do
  let efd ← body.encrypted_flow_data
  let eak ← body.encrypted_aes_key
  let ivb ← body.initial_vector
  let flow_data ← b64Decode efd
  let iv ← b64Decode ivb
  let encrypted_aes_key ← b64Decode eak
  let aes_key ← rsaDecrypt encrypted_aes_key
  let bytes ← decryptFlowData p aes_key iv flow_data
  let msg ← jsonLoads bytes
  return (msg, aes_key, iv)

/-- `FLOW_CATEGORIES` (src/flow_handlers.py 18-35). -/
def FLOW_CATEGORIES : List (String × String) :=
  [("starters", "🍗 Starters"), ("spin_rolls", "🌯 Spin Rolls"),
   ("appetizers", "🍟 Appetizers"), ("wings", "🍗 Wings"),
   ("traditional_pizza", "🍕 Traditional Pizza"), ("special_pizza", "✨ Special Pizza"),
   ("signature_pizza", "👑 Signature Pizza"), ("square_pizza", "⬜ Square Pizza"),
   ("pastas", "🍝 Pastas"), ("royal_pizza", "👑 Royal Pizza"),
   ("burgers", "🍔 Burgers"), ("doner_wrap_shawarma", "🌯 Doner/Wrap/Shawarma"),
   ("french_fries", "🍟 French Fries"), ("sandwiches", "🥪 Sandwiches"),
   ("cold_drinks", "🥤 Cold Drinks"), ("toppings", "✨ Toppings")]

/-- The Mongo collections the flow endpoint reads. -/
structure FlowDb where
  menus : List MenuItem
  promo_codes : List PromoDoc

/-- `get_categories_for_flow(db)` (src/flow_handlers.py 39-48). -/
def get_categories_for_flow : List (String × String) := FLOW_CATEGORIES

/-- `get_items_for_flow(db, category)` (src/flow_handlers.py 52-97):
`(id, title[:30])` pairs for the RadioButtonsGroup. -/
def get_items_for_flow (db : FlowDb) (category : String) : List (String × String) :=
  (db.menus.filter (fun m => m.category = some category)).map (fun item =>
    let name := item.name.getD "Item"
    let title :=
      if item.sizes ≠ [] then name ++ " – Rs. " ++ qRender ((item.sizes.map Prod.snd).headD 0)
      else name ++ " – Rs. " ++ qRender (item.price.getD 0)
    (item.oid, pyTake title 30))

/-- `get_customize_options(db, item_id)` (src/flow_handlers.py 119-176):
`(sizes, addons)` option pairs; an unknown item yields two empty lists. -/
def get_customize_options (db : FlowDb) (item_id : String) :
    List (String × String) × List (String × String) :=
  match db.menus.find? (fun m => m.oid = item_id) with
  | none => ([], [])
  | some item =>
    let sizes_options := item.sizes.map (fun p => (p.1, p.1 ++ " — Rs. " ++ qRender p.2))
    let addons_options :=
      ((db.menus.filter (fun m => m.category = some "toppings")).take 50).filterMap
        (fun topping =>
          if topping.sizes ≠ [] then
            some (topping.oid,
              topping.name.getD "" ++ " +Rs. " ++ qRender ((topping.sizes.map Prod.snd).headD 0))
          else none)
    (sizes_options, addons_options)

/-- `(id, title)` pairs as a JSON array. -/
def jIdTitleArr (l : List (String × String)) : JVal :=
  JVal.jarr (l.map (fun p => JVal.jobj [("id", JVal.jstr p.1), ("title", JVal.jstr p.2)]))

/-- A flow cart item echoed back into a JSON response (present keys only,
in the transport's order). -/
def jCartItem (ci : FlowCartItem) : JVal :=
  JVal.jobj
    ((match ci.item_name with | some v => [("item_name", JVal.jstr v)] | none => [])
      ++ (match ci.size with | some v => [("size", JVal.jstr v)] | none => [])
      ++ (match ci.qty with | some v => [("qty", JVal.jnum (v : ℚ))] | none => [])
      ++ (match ci.unit_price with | some v => [("unit_price", JVal.jnum v)] | none => [])
      ++ (match ci.item_total with | some v => [("item_total", JVal.jnum v)] | none => []))

/-- Echoed `cart_items`. -/
def jCartItems (l : List FlowCartItem) : JVal := JVal.jarr (l.map jCartItem)

/-- What the endpoint handler returns to FastAPI: either
`PlainTextResponse(encrypted)` or the Flask-style tuple
`({"error": str(e)}, status)` (src/main.py 473, 479, 485). -/
inductive EndpointResult where
  | plainText (content : String)
  | jsonError (status : Nat)
deriving DecidableEq

/-- The HTTP status FastAPI actually sends for each handler return value:
`PlainTextResponse` defaults to 200, and any non-Response return value —
including the tuple `({"error": str(e)}, 421)` — is passed through
`jsonable_encoder` and wrapped in a `JSONResponse` with the *default* status
200 (FastAPI, unlike Flask, gives `(body, status)` tuples no special
meaning: the tuple is serialized as a two-element JSON array). -/
def fastapiStatus : EndpointResult → Nat
  | .plainText _ => 200
  | .jsonError _ => 200

/-- `whatsapp_flow_endpoint(request)` (src/main.py 205-485): decrypt the
envelope (failure → the `({"error": ...}, 421)` return), dispatch on
action/screen, then encrypt the response dict with the same key and the
flipped IV and return it as plain text. Returns the handler result and the
orders inserted. -/
def whatsapp_flow_endpoint (p : GcmPrim) (rsaDecrypt : List Nat → Option (List Nat))
    (jsonLoads : List Nat → Option DecryptedMsg) (db : FlowDb) (now : Int)
    (ts nowIso : String) (body : FlowBody) : EndpointResult × List FlowOrderDoc :=
  match decrypt_request p rsaDecrypt jsonLoads body with
  | none => (EndpointResult.jsonError 421, [])
  | some (msg, aes_key, iv) =>
    let action := msg.action
    let screen := msg.screen
    let data := msg.data
    let branch : JVal × List FlowOrderDoc :=
      if action = some "ping" then
        (JVal.jobj [("data", JVal.jobj [("status", JVal.jstr "active")])], [])
      else if action = some "data_exchange" ∧ screen = some "CATEGORY" then
        let category := data.category.getD ""
        if category = "" then
          (JVal.jobj [("screen", JVal.jstr "CATEGORY"),
             ("data", JVal.jobj [("categories", jIdTitleArr get_categories_for_flow),
               ("message", JVal.jstr "🍕 Welcome to Lomaro Pizza!\nSelect a category to get started.")])],
           [])
        else
          let items := get_items_for_flow db category
          (JVal.jobj [("screen", JVal.jstr "ITEMS"),
             ("data", JVal.jobj [("category", JVal.jstr category),
               ("items", if items ≠ [] then jIdTitleArr items
                 else jIdTitleArr [("sample1", "No items available")]),
               ("message", JVal.jstr "Select an item")])], [])
      else if action = some "data_exchange" ∧ screen = some "ITEMS" then
        let item_id := data.selected_item.getD ""
        let category := data.category.getD ""
        if item_id = "" then
          (JVal.jobj [("screen", JVal.jstr "ITEMS"),
             ("data", JVal.jobj [("category", JVal.jstr category),
               ("items", jIdTitleArr (get_items_for_flow db category)),
               ("message", JVal.jstr "Please select an item")])], [])
        else
          let customize_opts := get_customize_options db item_id
          (JVal.jobj [("screen", JVal.jstr "CUSTOMIZE"),
             ("data", JVal.jobj [("selected_item", JVal.jstr item_id),
               ("category", JVal.jstr category),
               ("sizes", jIdTitleArr customize_opts.1),
               ("addons", jIdTitleArr customize_opts.2),
               ("message", JVal.jstr "Select size and addons")])], [])
      else if action = some "data_exchange" ∧ screen = some "CUSTOMIZE" then
        let cart_items := data.cart_items.getD []
        (JVal.jobj [("screen", JVal.jstr "PROMO"),
           ("data", JVal.jobj [("cart_items", jCartItems cart_items),
             ("message", JVal.jstr "Enter promo code (optional)"),
             ("promo_code_field", JVal.jstr "")])], [])
      else if action = some "data_exchange" ∧ screen = some "PROMO" then
        let cart_items := data.cart_items.getD []
        let promo_code := pyStrip (data.promo_code.getD "")
        let pricing := calculate_order_total db.promo_codes now cart_items
          (if promo_code ≠ "" then some promo_code else none)
        (JVal.jobj [("screen", JVal.jstr "PAYMENT"),
           ("data", JVal.jobj [("subtotal", JVal.jnum pricing.subtotal),
             ("discount", JVal.jnum pricing.discount),
             ("tax", JVal.jnum pricing.tax),
             ("total", JVal.jnum pricing.total),
             ("promo_message", JVal.jstr pricing.promo_message),
             ("cart_items", jCartItems cart_items)])], [])
      else if action = some "data_exchange" ∧ screen = some "PAYMENT" then
        (JVal.jobj [("screen", JVal.jstr "CONFIRMATION"),
           ("data", JVal.jobj [("message", JVal.jstr "Please enter delivery details"),
             ("cart_items", jCartItems (data.cart_items.getD [])),
             ("total", JVal.jnum (data.total.getD 0))])], [])
      else if action = some "data_exchange" ∧ screen = some "CONFIRMATION" then
        let phone := pyStrip (data.customer_phone.getD "")
        if phone = "" then
          (JVal.jobj [("screen", JVal.jstr "CONFIRMATION"),
             ("data", JVal.jobj [("error", JVal.jstr "Phone number is required"),
               ("success", JVal.jbool false)])], [])
        else
          let order_data : OrderData :=
            { customer_phone := phone
              customer_name := data.customer_name.getD ""
              customer_address := data.customer_address.getD ""
              delivery_notes := data.delivery_notes.getD ""
              cart_items := data.cart_items.getD []
              subtotal := data.subtotal.getD 0
              discount := data.discount.getD 0
              tax := data.tax.getD 0
              total := data.total.getD 0
              payment_method := data.payment_method.getD "cod"
              promo_code := data.promo_code.getD "" }
          let result := create_order_from_flow ts nowIso order_data
          (JVal.jobj [("screen", JVal.jstr "SUCCESS"),
             ("data", JVal.jobj [("order_id", JVal.jstr (result.1.order_id.getD "")),
               ("total", JVal.jnum order_data.total),
               ("message", JVal.jstr "Order confirmed! Thank you for ordering."),
               ("success", JVal.jbool true)])], result.2)
      else
        (JVal.jobj [("screen", JVal.jstr (screen.getD "CATEGORY")),
           ("data", JVal.jobj [("error", JVal.jstr "Unknown request")])], [])
    (EndpointResult.plainText (encrypt_response p branch.1 aes_key iv), branch.2)

/-! ## Shared concrete instances for witnesses and counterexamples -/

/-- A trivial cipher primitive of GCM's shape (zero keystream, zero tag). -/
def trivGcm : GcmPrim := ⟨fun _ _ _ => 0, fun _ _ _ => List.replicate 16 0⟩

theorem trivGcm_wf : GcmWF trivGcm := by
  refine ⟨fun k n i => ?_, fun k n c => ?_, fun k n c b hb => ?_⟩
  · norm_num [trivGcm]
  · simp [trivGcm]
  · simp [trivGcm] at hb
    omega

/-- A cipher primitive whose tag is a byte-sum checksum of the ciphertext:
enough to watch a concrete one-byte tamper fail authentication. -/
def sumMacGcm : GcmPrim :=
  ⟨fun _ _ _ => 0, fun _ _ ct => List.replicate 16 ((ct.foldl (· + ·) 0) % 256)⟩

/-- A concrete 32-byte AES-256 key. -/
def key256 : List Nat := List.replicate 32 0

/-- A concrete 16-byte IV. -/
def iv16 : List Nat := List.replicate 16 9

/-- The fixed health-check acknowledgement object. -/
def activeAck : JVal := JVal.jobj [("data", JVal.jobj [("status", JVal.jstr "active")])]

/-- A concrete RSA-OAEP unwrap returning the fixed AES key. -/
def rsaFixedKey : List Nat → Option (List Nat) := fun _ => some key256

/-- A concrete `json.loads` yielding a ping message. -/
def loadsPing : List Nat → Option DecryptedMsg := fun _ => some { action := some "ping" }

/-- Empty flow collections. -/
def emptyFlowDb : FlowDb := ⟨[], []⟩

/-- A request body that lacks every encrypted-envelope field but carries a
ping action. -/
def noEnvelopePing : FlowBody := { action := some "ping" }

/-- A well-formed envelope (ciphertext `[1, 2, 3]` with the matching
`trivGcm` tag) that decrypts to a ping under `loadsPing`. -/
def pingEnvelope : FlowBody :=
  { encrypted_flow_data := some (b64Encode ([1, 2, 3] ++ List.replicate 16 0))
    encrypted_aes_key := some (b64Encode [9])
    initial_vector := some (b64Encode iv16) }

/-- The `pingEnvelope` ciphertext under `sumMacGcm` (honest tag 6 = 1+2+3)
with its first ciphertext byte flipped from 1 to 0. -/
def tamperedEnvelope : FlowBody :=
  { encrypted_flow_data := some (b64Encode ([0, 2, 3] ++ List.replicate 16 6))
    encrypted_aes_key := some (b64Encode [9])
    initial_vector := some (b64Encode iv16) }

/-! ## C1: codec round-trip -/

theorem gcmEncrypt_bytes (p : GcmPrim) (hp : GcmWF p) (key nonce pt : List Nat)
    (hpt : Bytes pt) : Bytes (gcmEncrypt p key nonce pt) := by
  intro b hb
  simp only [gcmEncrypt, List.mem_append] at hb
  rcases hb with hb | hb
  · exact xorStreamFrom_bytes (p.ks key nonce) (hp.ks_lt key nonce) 0 pt hpt b hb
  · exact hp.mac_bytes key nonce _ b hb

/-- C1: codec round-trip. For every cipher primitive of AES-GCM's shape,
every symmetric key, IV and JSON response: `encrypt_response` encrypts the
serialized response under the same key with every IV byte XORed with 0xFF as
the GCM nonce and appends the GCM tag (the base64 output decodes to exactly
ciphertext-then-16-byte-tag, first conjunct), and decrypting that output
with the same key and the inverted IV — splitting the trailing 16 bytes off
as the tag, as `decrypt_request` does — recovers the original plaintext
exactly (second conjunct). -/
theorem C1_codec_roundtrip (p : GcmPrim) (hp : GcmWF p) (aes_key iv : List Nat)
    (response : JVal) :
    b64Decode (encrypt_response p response aes_key iv)
      = some (xorStream (p.ks aes_key (flipIV iv)) (utf8Bytes (jsonDumps response))
          ++ p.mac aes_key (flipIV iv)
              (xorStream (p.ks aes_key (flipIV iv)) (utf8Bytes (jsonDumps response))))
    ∧ decryptFlowData p aes_key (flipIV iv)
        (gcmEncrypt p aes_key (flipIV iv) (utf8Bytes (jsonDumps response)))
      = some (utf8Bytes (jsonDumps response)) := by
  constructor
  · have hbytes := gcmEncrypt_bytes p hp aes_key (flipIV iv)
      (utf8Bytes (jsonDumps response)) (utf8Bytes_bytes _)
    simpa [encrypt_response, gcmEncrypt] using b64_roundtrip _ hbytes
  · exact gcm_roundtrip p hp _ _ _

/-- C1 witness: the round-trip at a concrete primitive, key, IV and
response object. -/
theorem C1_codec_roundtrip_witness :
    GcmWF trivGcm
    ∧ (b64Decode (encrypt_response trivGcm activeAck key256 iv16)
        = some (xorStream (trivGcm.ks key256 (flipIV iv16)) (utf8Bytes (jsonDumps activeAck))
            ++ trivGcm.mac key256 (flipIV iv16)
                (xorStream (trivGcm.ks key256 (flipIV iv16)) (utf8Bytes (jsonDumps activeAck))))
       ∧ decryptFlowData trivGcm key256 (flipIV iv16)
          (gcmEncrypt trivGcm key256 (flipIV iv16) (utf8Bytes (jsonDumps activeAck)))
        = some (utf8Bytes (jsonDumps activeAck))) :=
  ⟨trivGcm_wf, C1_codec_roundtrip trivGcm trivGcm_wf key256 iv16 activeAck⟩

/-! ## C2: the ping path -/

/-- C2 counterexample: a request body that lacks the encrypted envelope
fields and carries a ping action gets the decryption-failure return, not the
fixed acknowledgement; and an encrypted ping gets the acknowledgement
encrypted with the session key and inverted IV, which is not the verbatim
JSON of `{"data": {"status": "active"}}`. -/
theorem C2_ping_counterexample :
    whatsapp_flow_endpoint trivGcm rsaFixedKey loadsPing emptyFlowDb 0
        "20250101120000" "iso" noEnvelopePing = (EndpointResult.jsonError 421, [])
    ∧ whatsapp_flow_endpoint trivGcm rsaFixedKey loadsPing emptyFlowDb 0
        "20250101120000" "iso" pingEnvelope
      = (EndpointResult.plainText (encrypt_response trivGcm activeAck key256 iv16), [])
    ∧ encrypt_response trivGcm activeAck key256 iv16 ≠ jsonDumps activeAck := by
  refine ⟨by rfl, by rfl, by decide⟩

/-- C2 amended: the ping action is detected inside the decrypted envelope
(not by the absence of the envelope fields), its fixed acknowledgement
`{"data": {"status": "active"}}` is encrypted with the request's AES key and
inverted IV like every other response; a request missing any envelope field
fails decryption and receives the decryption-failure return instead. -/
theorem C2_ping_amended (p : GcmPrim) (rsa : List Nat → Option (List Nat))
    (jl : List Nat → Option DecryptedMsg) (db : FlowDb) (now : Int) (ts nowIso : String) :
    (∀ body msg key iv, decrypt_request p rsa jl body = some (msg, key, iv) →
        msg.action = some "ping" →
        whatsapp_flow_endpoint p rsa jl db now ts nowIso body =
          (EndpointResult.plainText (encrypt_response p activeAck key iv), []))
    ∧ (∀ body : FlowBody, (body.encrypted_flow_data = none ∨ body.encrypted_aes_key = none ∨
          body.initial_vector = none) →
        whatsapp_flow_endpoint p rsa jl db now ts nowIso body =
          (EndpointResult.jsonError 421, [])) := by
  constructor
  · intro body msg key iv hdec hping
    simp [whatsapp_flow_endpoint, hdec, hping, activeAck]
  · intro body h
    have hnone : decrypt_request p rsa jl body = none := by
      rcases h with h | h | h <;> simp [decrypt_request, h]
    simp [whatsapp_flow_endpoint, hnone]

/-! ## C3: tampered ciphertext -/

/-- C3 evaluation at the failing input: with the checksum primitive, the
one-byte-flipped envelope fails tag authentication (`decryptFlowData` and
`decrypt_request` yield no plaintext), the endpoint takes the
`return ({"error": ...}, 421)` path — and the HTTP status FastAPI actually
sends for that tuple return is 200, not the 421 the code's comment and the
claim state. -/
theorem C3_tampered_status :
    decryptFlowData sumMacGcm key256 iv16 ([0, 2, 3] ++ List.replicate 16 6) = none
    ∧ decrypt_request sumMacGcm rsaFixedKey loadsPing tamperedEnvelope = none
    ∧ whatsapp_flow_endpoint sumMacGcm rsaFixedKey loadsPing emptyFlowDb 0 "ts" "iso"
        tamperedEnvelope = (EndpointResult.jsonError 421, [])
    ∧ fastapiStatus (whatsapp_flow_endpoint sumMacGcm rsaFixedKey loadsPing emptyFlowDb 0
        "ts" "iso" tamperedEnvelope).1 = 200 := by
  refine ⟨by decide, by decide, by rfl, by rfl⟩

/-! ## Chat state machine lemmas -/

theorem currentSession_phone (store : SessionStore) (phone : String) :
    (currentSession store phone).phone = phone := by
  unfold currentSession findSession
  cases hfind : store.find? (fun s => s.phone = phone) with
  | none => rfl
  | some s => simpa using List.find?_some hfind

theorem currentSession_saveSession (store : SessionStore) (s : ChatSession) (phone : String)
    (h : s.phone = phone) : currentSession (saveSession store s) phone = s := by
  induction store with
  | nil => simp [saveSession, currentSession, findSession, h]
  | cons t rest ih =>
    by_cases ht : t.phone = s.phone
    · simp [saveSession, ht, currentSession, findSession, h]
    · have ht' : ¬ t.phone = phone := fun hc => ht (hc.trans h.symm)
      simpa [saveSession, ht, currentSession, findSession, ht'] using ih

theorem parse_some_not_keyword {t : String} {q : Int} (h : parsePyInt t = some q) :
    t ∉ restartKeywords ∧ t ∉ greetKeywords ∧ t ≠ "" := by
  refine ⟨fun hm => ?_, fun hm => ?_, fun hm => ?_⟩
  · simp only [restartKeywords, List.mem_cons, List.not_mem_nil, or_false] at hm
    rcases hm with rfl | rfl | rfl | rfl <;> exact Option.noConfusion h
  · simp only [greetKeywords, List.mem_cons, List.not_mem_nil, or_false] at hm
    rcases hm with rfl | rfl | rfl | rfl | rfl | rfl <;> exact Option.noConfusion h
  · subst hm
    exact Option.noConfusion h

/-! ## C4: restart keywords -/

/-- Empty chat collections. -/
def chatDb0 : ChatDb := ⟨[], []⟩

/-- A concrete regular cart line. -/
def line550 : CartLine :=
  { item_name := some "Margherita", deal_items := none, size := "Regular", qty := 1,
    unit_price := 550, total_price := 550 }

/-- A stored session that is still in language selection but carries a cart
line (the claim quantifies over every session state). -/
def sessLangCart : ChatSession :=
  { phone := "923001234567", state := ChatState.select_language, language := some "en",
    cart := [line550], temp_item := {}, customer_name := none, customer_address := none }

/-- C4 counterexample: in the language-select state the restart keyword
`menu` neither moves the session to the menu state nor clears the cart — the
stored session is untouched (the handler answers with the language prompt
before the restart check runs). -/
theorem C4_restart_counterexample :
    (currentSession [sessLangCart] "923001234567").state = ChatState.select_language
    ∧ (currentSession (handle_user_message chatDb0 "gid" "iso" [sessLangCart] "menu"
        "923001234567").store "923001234567").state ≠ ChatState.show_menu
    ∧ (currentSession (handle_user_message chatDb0 "gid" "iso" [sessLangCart] "menu"
        "923001234567").store "923001234567").cart ≠ [] := by
  refine ⟨rfl, by decide, by decide⟩

/-- C4 amended: in every state other than language-select, a restart keyword
unconditionally resets the session to the menu state with an empty cart and
cleared pending selection; in the language-select state the restart keywords
leave the stored session (and cart) unchanged, re-prompting instead. -/
theorem C4_restart_amended (db : ChatDb) (genId nowIso : String) (store : SessionStore)
    (text_body phone : String) (hkw : normalize_text text_body ∈ restartKeywords) :
    ((currentSession store phone).state ≠ ChatState.select_language →
      handle_user_message db genId nowIso store text_body phone =
        { reply := show_main_menu db (currentSession store phone).language,
          store := saveSession store
            { currentSession store phone with
              state := ChatState.show_menu
              cart := []
              temp_item := {} },
          orders := [] })
    ∧ ((currentSession store phone).state = ChatState.select_language →
        (handle_user_message db genId nowIso store text_body phone).store = store
        ∧ (handle_user_message db genId nowIso store text_body phone).orders = []) := by
  constructor
  · intro hne
    simp only [handle_user_message]
    rw [if_neg hne, if_pos hkw]
    rfl
  · intro heq
    simp only [handle_user_message]
    rw [if_pos heq]
    simp only [restartKeywords, List.mem_cons, List.not_mem_nil, or_false] at hkw
    rcases hkw with h | h | h | h <;> rw [h] <;> exact ⟨rfl, rfl⟩

/-- The same stored session as `sessLangCart` but sitting in the menu state. -/
def sessMenuCart : ChatSession := { sessLangCart with state := ChatState.show_menu }

/-- C4 witness: the reset at a concrete menu-state session with a cart. -/
theorem C4_restart_amended_witness :
    handle_user_message chatDb0 "gid" "iso" [sessMenuCart] "menu" "923001234567" =
      { reply := show_main_menu chatDb0 (currentSession [sessMenuCart] "923001234567").language,
        store := saveSession [sessMenuCart]
          { currentSession [sessMenuCart] "923001234567" with
            state := ChatState.show_menu
            cart := []
            temp_item := {} },
        orders := [] } :=
  (C4_restart_amended chatDb0 "gid" "iso" [sessMenuCart] "menu" "923001234567"
    (by decide)).1 (by decide)

/-! ## C5: quantity bounds -/

/-- The cart line the quantity commit appends. -/
def qtyCartLine (S : ChatSession) (q : Int) : CartLine :=
  { item_name := S.temp_item.item_name, deal_items := none,
    size := S.temp_item.size.getD "N/A", qty := q,
    unit_price := S.temp_item.unit_price.getD 0,
    total_price := S.temp_item.unit_price.getD 0 * (q : ℚ) }

/-- C5: in the quantity-pick state, an integer input in [1, 100] appends one
cart line with total `qty × unitPrice` and moves to add-more; an integer
`≤ 0` is rejected with the too-low reply, an integer `> 100` with the
too-high reply, and non-numeric (non-empty, non-keyword) input with the
not-a-number reply, each leaving the store unchanged; the three rejection
replies are pairwise distinct in every language. -/
theorem C5_quantity_pick (db : ChatDb) (genId nowIso : String) (store : SessionStore)
    (text_body phone : String)
    (hstate : (currentSession store phone).state = ChatState.pick_qty) :
    (∀ q : Int, parsePyInt (normalize_text text_body) = some q →
      ((1 ≤ q ∧ q ≤ 100 →
        handle_user_message db genId nowIso store text_body phone =
          { reply := show_add_more_menu
              ((currentSession store phone).cart ++ [qtyCartLine (currentSession store phone) q])
              (currentSession store phone).language,
            store := saveSession store
              { currentSession store phone with
                state := ChatState.add_more
                cart := (currentSession store phone).cart
                  ++ [qtyCartLine (currentSession store phone) q]
                temp_item := {} },
            orders := [] })
      ∧ (q ≤ 0 →
          handle_user_message db genId nowIso store text_body phone =
            { reply := get_text (currentSession store phone).language LKey.qty_must_be_one,
              store := store, orders := [] })
      ∧ (100 < q →
          handle_user_message db genId nowIso store text_body phone =
            { reply := get_text (currentSession store phone).language LKey.qty_max_hundred,
              store := store, orders := [] })))
    ∧ (parsePyInt (normalize_text text_body) = none → normalize_text text_body ≠ "" →
        normalize_text text_body ∉ restartKeywords → normalize_text text_body ∉ greetKeywords →
        handle_user_message db genId nowIso store text_body phone =
          { reply := get_text (currentSession store phone).language LKey.invalid_qty,
            store := store, orders := [] })
    ∧ (∀ lang : Option String,
        get_text lang LKey.qty_must_be_one ≠ get_text lang LKey.qty_max_hundred
        ∧ get_text lang LKey.qty_must_be_one ≠ get_text lang LKey.invalid_qty
        ∧ get_text lang LKey.qty_max_hundred ≠ get_text lang LKey.invalid_qty) := by
  have hcsel : ¬ (currentSession store phone).state = ChatState.select_language := by
    rw [hstate]; decide
  have hcidle : ¬ (currentSession store phone).state = ChatState.idle := by
    rw [hstate]; decide
  have hcshow : ¬ (currentSession store phone).state = ChatState.show_menu := by
    rw [hstate]; decide
  have hcdeal : ¬ (currentSession store phone).state = ChatState.pick_deal := by
    rw [hstate]; decide
  have hcitem : ¬ (currentSession store phone).state = ChatState.pick_item := by
    rw [hstate]; decide
  have hcsize : ¬ (currentSession store phone).state = ChatState.pick_size := by
    rw [hstate]; decide
  refine ⟨fun q hq => ?_, fun hnone hne hnr hng => ?_, fun lang => ?_⟩
  · obtain ⟨hnr, hng, hne⟩ := parse_some_not_keyword hq
    refine ⟨fun hrange => ?_, fun hle => ?_, fun hgt => ?_⟩
    · have h1 : ¬ q ≤ 0 := by omega
      have h2 : ¬ q > 100 := by omega
      simp only [handle_user_message, st_pick_qty, hstate, hq, hnr, hng, hne, h1, h2,
        if_false, if_true, qtyCartLine]
      simp [hcsel, hcidle, hcshow, hcdeal, hcitem, hcsize, hnr, hng, hne, h1, h2]
    · have h1 : q ≤ 0 := hle
      simp only [handle_user_message, st_pick_qty, hstate, hq, hnr, hng, hne, h1,
        if_false, if_true]
      simp [hcsel, hcidle, hcshow, hcdeal, hcitem, hcsize, hnr, hng, hne, h1]
    · have h1 : ¬ q ≤ 0 := by omega
      simp only [handle_user_message, st_pick_qty, hstate, hq, hnr, hng, hne, h1, hgt,
        if_false, if_true]
      simp [hcsel, hcidle, hcshow, hcdeal, hcitem, hcsize, hnr, hng, hne, h1, hgt]
  · simp only [handle_user_message, st_pick_qty, hstate, hnone, hne, if_false, if_true]
    simp [hcsel, hcidle, hcshow, hcdeal, hcitem, hcsize, hnr, hng, hne, hnone]
  · by_cases hl : lang = some "ur"
    · subst hl
      exact ⟨by decide, by decide, by decide⟩
    · simp only [get_text, if_neg hl]
      exact ⟨by decide, by decide, by decide⟩

/-- A concrete session waiting for a quantity. -/
def sessQty : ChatSession :=
  { phone := "92300", state := ChatState.pick_qty, language := some "en", cart := [],
    temp_item := { item_name := some "Margherita", unit_price := some 550 },
    customer_name := none, customer_address := none }

/-- C5 witness: the quantity contract at a concrete session and input. -/
theorem C5_quantity_pick_witness :
    (currentSession [sessQty] "92300").state = ChatState.pick_qty
    ∧ ((∀ q : Int, parsePyInt (normalize_text "3") = some q →
      ((1 ≤ q ∧ q ≤ 100 →
        handle_user_message chatDb0 "gid" "iso" [sessQty] "3" "92300" =
          { reply := show_add_more_menu
              ((currentSession [sessQty] "92300").cart
                ++ [qtyCartLine (currentSession [sessQty] "92300") q])
              (currentSession [sessQty] "92300").language,
            store := saveSession [sessQty]
              { currentSession [sessQty] "92300" with
                state := ChatState.add_more
                cart := (currentSession [sessQty] "92300").cart
                  ++ [qtyCartLine (currentSession [sessQty] "92300") q]
                temp_item := {} },
            orders := [] })
      ∧ (q ≤ 0 →
          handle_user_message chatDb0 "gid" "iso" [sessQty] "3" "92300" =
            { reply := get_text (currentSession [sessQty] "92300").language LKey.qty_must_be_one,
              store := [sessQty], orders := [] })
      ∧ (100 < q →
          handle_user_message chatDb0 "gid" "iso" [sessQty] "3" "92300" =
            { reply := get_text (currentSession [sessQty] "92300").language LKey.qty_max_hundred,
              store := [sessQty], orders := [] })))
    ∧ (parsePyInt (normalize_text "3") = none → normalize_text "3" ≠ "" →
        normalize_text "3" ∉ restartKeywords → normalize_text "3" ∉ greetKeywords →
        handle_user_message chatDb0 "gid" "iso" [sessQty] "3" "92300" =
          { reply := get_text (currentSession [sessQty] "92300").language LKey.invalid_qty,
            store := [sessQty], orders := [] })
    ∧ (∀ lang : Option String,
        get_text lang LKey.qty_must_be_one ≠ get_text lang LKey.qty_max_hundred
        ∧ get_text lang LKey.qty_must_be_one ≠ get_text lang LKey.invalid_qty
        ∧ get_text lang LKey.qty_max_hundred ≠ get_text lang LKey.invalid_qty)) :=
  ⟨rfl, C5_quantity_pick chatDb0 "gid" "iso" [sessQty] "3" "92300" rfl⟩

/-! ## C8: cart evolution invariant -/

/-- How one transition may change the stored cart: unchanged; grown by
exactly one line (earlier lines a prefix) at a quantity-pick or deal-pick
commit; or reset to empty at an idle transition, a restart keyword, or —
when `greetReset` is allowed — a greeting keyword. The claim as the spec
states it is the instance with `greetReset := False`; the code satisfies the
instance with `greetReset := True`. -/
def CartStepSpec (store : SessionStore) (phone text : String) (result : ChatStep)
    (greetReset : Prop) : Prop :=
  (currentSession result.store phone).cart = (currentSession store phone).cart
  ∨ ((currentSession result.store phone).cart.length
        = (currentSession store phone).cart.length + 1
      ∧ (currentSession store phone).cart <+: (currentSession result.store phone).cart
      ∧ ((currentSession store phone).state = ChatState.pick_qty
         ∨ (currentSession store phone).state = ChatState.pick_deal))
  ∨ ((currentSession result.store phone).cart = []
      ∧ ((currentSession store phone).state = ChatState.idle
         ∨ (currentSession result.store phone).state = ChatState.idle
         ∨ text ∈ restartKeywords
         ∨ (greetReset ∧ text ∈ greetKeywords)))

/-- C8 (amended): every chat transition either leaves the stored cart
unchanged, appends exactly one line at a quantity-pick/deal-pick commit, or
resets it to empty at an idle transition, restart keyword, or greeting. -/
theorem save_shape_unchanged_select_language (s : ChatSession) (t : String) :
    (st_select_language s t).save = none
    ∨ ∃ s', (st_select_language s t).save = some s' ∧ s'.phone = s.phone ∧ s'.cart = s.cart := by
  simp only [st_select_language]
  repeat' split
  all_goals first | exact Or.inl rfl | exact Or.inr ⟨_, rfl, rfl, rfl⟩

theorem save_shape_clear_idle (db : ChatDb) (s : ChatSession) (t : String) :
    (st_idle db s t).save = none
    ∨ ∃ s', (st_idle db s t).save = some s' ∧ s'.phone = s.phone ∧ s'.cart = [] := by
  simp only [st_idle]
  repeat' split
  all_goals first | exact Or.inl rfl | exact Or.inr ⟨_, rfl, rfl, rfl⟩

theorem save_shape_unchanged_show_menu (db : ChatDb) (s : ChatSession) (t : String) :
    (st_show_menu db s t).save = none
    ∨ ∃ s', (st_show_menu db s t).save = some s' ∧ s'.phone = s.phone ∧ s'.cart = s.cart := by
  simp only [st_show_menu]
  repeat' split
  all_goals first | exact Or.inl rfl | exact Or.inr ⟨_, rfl, rfl, rfl⟩

theorem save_shape_append_pick_deal (db : ChatDb) (s : ChatSession) (t : String) :
    (st_pick_deal db s t).save = none
    ∨ ∃ x s', (st_pick_deal db s t).save = some s' ∧ s'.phone = s.phone
        ∧ s'.cart = s.cart ++ [x] := by
  simp only [st_pick_deal]
  repeat' split
  all_goals first | exact Or.inl rfl | exact Or.inr ⟨_, _, rfl, rfl, rfl⟩

theorem save_shape_unchanged_pick_item (db : ChatDb) (s : ChatSession) (t : String) :
    (st_pick_item db s t).save = none
    ∨ ∃ s', (st_pick_item db s t).save = some s' ∧ s'.phone = s.phone ∧ s'.cart = s.cart := by
  simp only [st_pick_item]
  repeat' split
  all_goals first | exact Or.inl rfl | exact Or.inr ⟨_, rfl, rfl, rfl⟩

theorem save_shape_unchanged_pick_size (s : ChatSession) (t : String) :
    (st_pick_size s t).save = none
    ∨ ∃ s', (st_pick_size s t).save = some s' ∧ s'.phone = s.phone ∧ s'.cart = s.cart := by
  simp only [st_pick_size]
  repeat' split
  all_goals first | exact Or.inl rfl | exact Or.inr ⟨_, rfl, rfl, rfl⟩

theorem save_shape_append_pick_qty (s : ChatSession) (t : String) :
    (st_pick_qty s t).save = none
    ∨ ∃ x s', (st_pick_qty s t).save = some s' ∧ s'.phone = s.phone
        ∧ s'.cart = s.cart ++ [x] := by
  simp only [st_pick_qty]
  repeat' split
  all_goals first | exact Or.inl rfl | exact Or.inr ⟨_, _, rfl, rfl, rfl⟩

theorem save_shape_unchanged_add_more (db : ChatDb) (s : ChatSession) (t : String) :
    (st_add_more db s t).save = none
    ∨ ∃ s', (st_add_more db s t).save = some s' ∧ s'.phone = s.phone ∧ s'.cart = s.cart := by
  simp only [st_add_more]
  repeat' split
  all_goals first | exact Or.inl rfl | exact Or.inr ⟨_, rfl, rfl, rfl⟩

theorem save_shape_unchanged_ask_name (s : ChatSession) (t tb : String) :
    (st_ask_name s t tb).save = none
    ∨ ∃ s', (st_ask_name s t tb).save = some s' ∧ s'.phone = s.phone ∧ s'.cart = s.cart := by
  simp only [st_ask_name]
  repeat' split
  all_goals first | exact Or.inl rfl | exact Or.inr ⟨_, rfl, rfl, rfl⟩

theorem save_shape_unchanged_ask_address (s : ChatSession) (t tb ph : String) :
    (st_ask_address s t tb ph).save = none
    ∨ ∃ s', (st_ask_address s t tb ph).save = some s' ∧ s'.phone = s.phone
        ∧ s'.cart = s.cart := by
  simp only [st_ask_address]
  repeat' split
  all_goals first | exact Or.inl rfl | exact Or.inr ⟨_, rfl, rfl, rfl⟩

theorem save_shape_clear_confirm (s : ChatSession) (t ph g n : String) :
    (st_confirm_order s t ph g n).save = none
    ∨ ∃ s', (st_confirm_order s t ph g n).save = some s' ∧ s'.phone = s.phone
        ∧ s'.cart = [] ∧ s'.state = ChatState.idle := by
  simp only [st_confirm_order]
  repeat' split
  all_goals first | exact Or.inl rfl | exact Or.inr ⟨_, rfl, rfl, rfl, rfl⟩

theorem C8_cart_evolution (db : ChatDb) (genId nowIso : String) (store : SessionStore)
    (text_body phone : String) :
    CartStepSpec store phone (normalize_text text_body)
      (handle_user_message db genId nowIso store text_body phone) True := by
  have hph := currentSession_phone store phone
  unfold CartStepSpec
  simp only [handle_user_message]
  by_cases h1 : (currentSession store phone).state = ChatState.select_language
  case pos =>
    rw [if_pos h1]
    rcases save_shape_unchanged_select_language (currentSession store phone)
        (normalize_text text_body) with hnone | ⟨s', hsome, hp, hc⟩
    · simp only [hnone]
      exact Or.inl trivial
    · simp only [hsome]
      rw [currentSession_saveSession store s' phone (hp.trans hph)]
      exact Or.inl hc
  case neg =>
  rw [if_neg h1]
  by_cases h2 : normalize_text text_body ∈ restartKeywords
  case pos =>
    rw [if_pos h2]
    have hy := currentSession_saveSession store
      ({ currentSession store phone with
         state := ChatState.show_menu, cart := [], temp_item := {} }) phone hph
    exact Or.inr (Or.inr ⟨congrArg ChatSession.cart hy, Or.inr (Or.inr (Or.inl h2))⟩)
  case neg =>
  rw [if_neg h2]
  by_cases h3 : normalize_text text_body ∈ greetKeywords
  case pos =>
    rw [if_pos h3]
    have hy := currentSession_saveSession store
      ({ currentSession store phone with
         state := ChatState.select_language, cart := [], temp_item := {} }) phone hph
    exact Or.inr (Or.inr ⟨congrArg ChatSession.cart hy, Or.inr (Or.inr (Or.inr ⟨trivial, h3⟩))⟩)
  case neg =>
  rw [if_neg h3]
  by_cases h4 : (currentSession store phone).state = ChatState.idle
  case pos =>
    rw [if_pos h4]
    rcases save_shape_clear_idle db (currentSession store phone)
        (normalize_text text_body) with hnone | ⟨s', hsome, hp, hc⟩
    · simp only [hnone]
      exact Or.inl trivial
    · simp only [hsome]
      rw [currentSession_saveSession store s' phone (hp.trans hph)]
      exact Or.inr (Or.inr ⟨hc, Or.inl h4⟩)
  case neg =>
  rw [if_neg h4]
  by_cases h5 : (currentSession store phone).state = ChatState.show_menu
  case pos =>
    rw [if_pos h5]
    rcases save_shape_unchanged_show_menu db (currentSession store phone)
        (normalize_text text_body) with hnone | ⟨s', hsome, hp, hc⟩
    · simp only [hnone]
      exact Or.inl trivial
    · simp only [hsome]
      rw [currentSession_saveSession store s' phone (hp.trans hph)]
      exact Or.inl hc
  case neg =>
  rw [if_neg h5]
  by_cases h6 : (currentSession store phone).state = ChatState.pick_deal
  case pos =>
    rw [if_pos h6]
    rcases save_shape_append_pick_deal db (currentSession store phone)
        (normalize_text text_body) with hnone | ⟨x, s', hsome, hp, hc⟩
    · simp only [hnone]
      exact Or.inl trivial
    · simp only [hsome]
      rw [currentSession_saveSession store s' phone (hp.trans hph)]
      refine Or.inr (Or.inl ⟨?_, ?_, Or.inr h6⟩)
      · rw [hc]
        simp
      · rw [hc]
        exact List.prefix_append _ _
  case neg =>
  rw [if_neg h6]
  by_cases h7 : (currentSession store phone).state = ChatState.pick_item
  case pos =>
    rw [if_pos h7]
    rcases save_shape_unchanged_pick_item db (currentSession store phone)
        (normalize_text text_body) with hnone | ⟨s', hsome, hp, hc⟩
    · simp only [hnone]
      exact Or.inl trivial
    · simp only [hsome]
      rw [currentSession_saveSession store s' phone (hp.trans hph)]
      exact Or.inl hc
  case neg =>
  rw [if_neg h7]
  by_cases h8 : (currentSession store phone).state = ChatState.pick_size
  case pos =>
    rw [if_pos h8]
    rcases save_shape_unchanged_pick_size (currentSession store phone)
        (normalize_text text_body) with hnone | ⟨s', hsome, hp, hc⟩
    · simp only [hnone]
      exact Or.inl trivial
    · simp only [hsome]
      rw [currentSession_saveSession store s' phone (hp.trans hph)]
      exact Or.inl hc
  case neg =>
  rw [if_neg h8]
  by_cases h9 : (currentSession store phone).state = ChatState.pick_qty
  case pos =>
    rw [if_pos h9]
    rcases save_shape_append_pick_qty (currentSession store phone)
        (normalize_text text_body) with hnone | ⟨x, s', hsome, hp, hc⟩
    · simp only [hnone]
      exact Or.inl trivial
    · simp only [hsome]
      rw [currentSession_saveSession store s' phone (hp.trans hph)]
      refine Or.inr (Or.inl ⟨?_, ?_, Or.inl h9⟩)
      · rw [hc]
        simp
      · rw [hc]
        exact List.prefix_append _ _
  case neg =>
  rw [if_neg h9]
  by_cases h10 : (currentSession store phone).state = ChatState.add_more
  case pos =>
    rw [if_pos h10]
    rcases save_shape_unchanged_add_more db (currentSession store phone)
        (normalize_text text_body) with hnone | ⟨s', hsome, hp, hc⟩
    · simp only [hnone]
      exact Or.inl trivial
    · simp only [hsome]
      rw [currentSession_saveSession store s' phone (hp.trans hph)]
      exact Or.inl hc
  case neg =>
  rw [if_neg h10]
  by_cases h11 : (currentSession store phone).state = ChatState.ask_name
  case pos =>
    rw [if_pos h11]
    rcases save_shape_unchanged_ask_name (currentSession store phone)
        (normalize_text text_body) text_body with hnone | ⟨s', hsome, hp, hc⟩
    · simp only [hnone]
      exact Or.inl trivial
    · simp only [hsome]
      rw [currentSession_saveSession store s' phone (hp.trans hph)]
      exact Or.inl hc
  case neg =>
  rw [if_neg h11]
  by_cases h12 : (currentSession store phone).state = ChatState.ask_address
  case pos =>
    rw [if_pos h12]
    rcases save_shape_unchanged_ask_address (currentSession store phone)
        (normalize_text text_body) text_body phone with hnone | ⟨s', hsome, hp, hc⟩
    · simp only [hnone]
      exact Or.inl trivial
    · simp only [hsome]
      rw [currentSession_saveSession store s' phone (hp.trans hph)]
      exact Or.inl hc
  case neg =>
  rw [if_neg h12]
  by_cases h13 : (currentSession store phone).state = ChatState.confirm_order
  case pos =>
    rw [if_pos h13]
    rcases save_shape_clear_confirm (currentSession store phone)
        (normalize_text text_body) phone genId nowIso with hnone | ⟨s', hsome, hp, hc, hst⟩
    · simp only [hnone]
      exact Or.inl trivial
    · simp only [hsome]
      rw [currentSession_saveSession store s' phone (hp.trans hph)]
      exact Or.inr (Or.inr ⟨hc, Or.inr (Or.inl hst)⟩)
  case neg =>
  rw [if_neg h13]
  exact Or.inl rfl

/-- The same stored session as `sessLangCart` but in the add-more state. -/
def sessAddMore : ChatSession := { sessLangCart with state := ChatState.add_more }

/-- C8 counterexample: a greeting (`hi`) from the add-more state resets the
cart to empty, yet that transition is neither a quantity/deal commit nor an
idle entry, cancellation or restart — the claim's reset list misses it. -/
theorem C8_cart_counterexample :
    ¬ CartStepSpec [sessAddMore] "923001234567" (normalize_text "hi")
        (handle_user_message chatDb0 "gid" "iso" [sessAddMore] "hi" "923001234567") False := by
  unfold CartStepSpec
  decide

/-! ## C6: promo validation -/

/-- The scenario promo: `SAVE10`, 10 percent, minimum order 1000. -/
def save10Promo : PromoDoc :=
  { code := "SAVE10", min_order := some 1000, discount_type := some "percentage",
    discount_value := some 10 }

/-- A flow cart worth 1200. -/
def cartItem1200 : FlowCartItem := { item_total := some 1200 }

/-- A flow cart worth 900. -/
def cartItem900 : FlowCartItem := { item_total := some 900 }

/-- `round(x, 2)` fixes every integer. -/
theorem round2_intCast (z : Int) : round2 (z : ℚ) = z := by
  have h100 : (z : ℚ) * 100 = ((z * 100 : Int) : ℚ) := by push_cast; ring
  simp only [round2, roundHalfEven, qFloor, h100, Rat.num_intCast, Rat.den_intCast,
    Nat.cast_one, Int.fdiv_one, sub_self]
  norm_num

theorem round2_0 : round2 (0 : ℚ) = 0 := by
  have h : ((0 : Int) : ℚ) = (0 : ℚ) := by norm_num
  rw [← h, round2_intCast]

theorem round2_120 : round2 (120 : ℚ) = 120 := by
  have h : ((120 : Int) : ℚ) = (120 : ℚ) := by norm_num
  rw [← h, round2_intCast]

theorem round2_900 : round2 (900 : ℚ) = 900 := by
  have h : ((900 : Int) : ℚ) = (900 : ℚ) := by norm_num
  rw [← h, round2_intCast]

theorem round2_1080 : round2 (1080 : ℚ) = 1080 := by
  have h : ((1080 : Int) : ℚ) = (1080 : ℚ) := by norm_num
  rw [← h, round2_intCast]

theorem round2_1200 : round2 (1200 : ℚ) = 1200 := by
  have h : ((1200 : Int) : ℚ) = (1200 : ℚ) := by norm_num
  rw [← h, round2_intCast]

theorem qr120 : qRender (120 : ℚ) = "120" := by decide

/-- `SAVE10` on subtotal 1200 validates with discount 120. -/
theorem promoValid1200 : validate_promo_code [save10Promo] 0 "SAVE10" 1200
    = ⟨true, 120, "Promo applied! You saved Rs. 120"⟩ := by
  have hup : pyUpper "SAVE10" = "SAVE10" := by rfl
  have hd : (1200 : ℚ) * ((10 : ℚ) / 100) = ((120 : Int) : ℚ) := by norm_num
  simp only [validate_promo_code, save10Promo, hup]
  norm_num [hd, beforeWindow, afterWindow, round2_120, qr120]
  rfl

/-- `SAVE10` on subtotal 900 is rejected for the minimum order. -/
theorem promoMin900 : validate_promo_code [save10Promo] 0 "SAVE10" 900
    = ⟨false, 0, "Minimum order Rs. 1000 required"⟩ := by
  have hup : pyUpper "SAVE10" = "SAVE10" := by rfl
  simp only [validate_promo_code, save10Promo, hup]
  norm_num [beforeWindow, afterWindow]
  rfl

/-- The 1200 cart prices at 1200/120/0/1080. -/
theorem promoTotal1200 : calculate_order_total [save10Promo] 0 [cartItem1200] (some "SAVE10")
    = ⟨1200, 120, 0, 1080, "Promo applied! You saved Rs. 120"⟩ := by
  simp only [calculate_order_total, cartItem1200, List.map_cons, List.map_nil,
    Option.getD_some, List.sum_cons, List.sum_nil, add_zero]
  simp only [promoValid1200]
  norm_num [round2_0, round2_120, round2_1200, round2_1080]
  split
  next h => exact absurd h (by decide)
  next h =>
    norm_num [round2_120, round2_1080]

/-- The 900 cart is priced with no discount and the rejection message. -/
theorem promoTotal900 : calculate_order_total [save10Promo] 0 [cartItem900] (some "SAVE10")
    = ⟨900, 0, 0, 900, "Minimum order Rs. 1000 required"⟩ := by
  simp only [calculate_order_total, cartItem900, List.map_cons, List.map_nil,
    Option.getD_some, List.sum_cons, List.sum_nil, add_zero]
  simp only [promoMin900]
  norm_num [round2_0, round2_900]
  split
  next h => exact absurd h (by decide)
  next h =>
    norm_num [round2_0, round2_900]

/-- C6: promo validation looks the code up after uppercasing, rejects with a
specific reason when unknown, not yet valid, expired, or under the minimum
order; otherwise the discount is `round2(subtotal × pct/100)` for percentage
promos or the fixed value for fixed promos (the pricing result rounds it to
2 decimals); scenario: `SAVE10` on subtotal 1200 gives discount 120 and
total 1080, on subtotal 900 the minimum-order rejection, and lookup is
case-insensitive. -/
theorem C6_promo_validation (promos : List PromoDoc) (now : Int) (code : String) (sub : ℚ) :
    (promos.find? (fun p => p.code = pyUpper code) = none →
      validate_promo_code promos now code sub
        = ⟨false, 0, "Promo code '" ++ code ++ "' not found"⟩)
    ∧ (∀ promo, promos.find? (fun p => p.code = pyUpper code) = some promo →
        ((beforeWindow now promo.valid_from = true →
            validate_promo_code promos now code sub
              = ⟨false, 0, "Promo code not yet valid"⟩)
          ∧ (beforeWindow now promo.valid_from = false →
              afterWindow now promo.valid_until = true →
              validate_promo_code promos now code sub
                = ⟨false, 0, "Promo code has expired"⟩)
          ∧ (beforeWindow now promo.valid_from = false →
              afterWindow now promo.valid_until = false →
              sub < promo.min_order.getD 0 →
              validate_promo_code promos now code sub
                = ⟨false, 0, "Minimum order Rs. " ++ qRender (promo.min_order.getD 0)
                    ++ " required"⟩)
          ∧ (beforeWindow now promo.valid_from = false →
              afterWindow now promo.valid_until = false →
              ¬ sub < promo.min_order.getD 0 →
              validate_promo_code promos now code sub
                = ⟨true,
                    if promo.discount_type.getD "percentage" = "percentage"
                    then round2 (sub * (promo.discount_value.getD 0 / 100))
                    else promo.discount_value.getD 0,
                    "Promo applied! You saved Rs. "
                      ++ qRender (if promo.discount_type.getD "percentage" = "percentage"
                          then round2 (sub * (promo.discount_value.getD 0 / 100))
                          else promo.discount_value.getD 0)⟩)))
    ∧ calculate_order_total [save10Promo] 0 [cartItem1200] (some "SAVE10")
        = ⟨1200, 120, 0, 1080, "Promo applied! You saved Rs. 120"⟩
    ∧ calculate_order_total [save10Promo] 0 [cartItem900] (some "SAVE10")
        = ⟨900, 0, 0, 900, "Minimum order Rs. 1000 required"⟩
    ∧ validate_promo_code [save10Promo] 0 "save10" 1200
        = validate_promo_code [save10Promo] 0 "SAVE10" 1200 := by
  refine ⟨fun hnone => ?_, fun promo hsome => ⟨fun hbw => ?_, fun hbw haw => ?_,
    fun hbw haw hmin => ?_, fun hbw haw hmin => ?_⟩, ?_, ?_, ?_⟩
  · simp [validate_promo_code, hnone]
  · simp [validate_promo_code, hsome, hbw]
  · simp [validate_promo_code, hsome, hbw, haw]
  · simp [validate_promo_code, hsome, hbw, haw, hmin]
  · simp [validate_promo_code, hsome, hbw, haw, hmin]
  · exact promoTotal1200
  · exact promoTotal900
  · rfl

/-! ## C7: order identifier formats -/

/-- C7 counterexample: a chat-transport order finalized at `confirm_order`
is identified by the database-generated ObjectId of the insert (here a
24-hex-digit string), which does not carry the `LOM-` format. -/
def sessConfirm : ChatSession :=
  { phone := "923001234567", state := ChatState.confirm_order, language := some "en",
    cart := [line550], temp_item := {}, customer_name := some "Ali",
    customer_address := some "Chak 117" }

/-- The Mongo ObjectId string the database generates for the chat insert. -/
def chatGenId : String := "68b1a2c3d4e5f60718293a4b"

theorem C7_chat_id_counterexample :
    ((handle_user_message chatDb0 chatGenId "iso" [sessConfirm] "1" "923001234567").orders.map
      (fun o => o.order_id)) = [chatGenId]
    ∧ chatGenId.data.take 4 ≠ "LOM-".data := by
  refine ⟨by rfl, by decide⟩

/-- C7 amended: orders finalized on the structured-form transports carry the
`LOM-{timestamp}-{last 4 of phone, or "0000"}` identifier (flow_handlers
cleans '+' and spaces first and falls back to "0000" on an empty phone;
flow_manager uses the trimmed phone it has already validated non-empty);
orders finalized on the chat transport are identified by the
database-generated id of the insert instead. -/
theorem C7_order_id_formats :
    (∀ ts nowIso od,
      ((create_order_from_flow ts nowIso od).2.map (fun d => d._id))
        = ["LOM-" ++ ts ++ "-"
            ++ (if pyTakeRight (pyRemoveChar ' ' (pyRemoveChar '+' od.customer_phone)) 4 = ""
                then "0000"
                else pyTakeRight (pyRemoveChar ' ' (pyRemoveChar '+' od.customer_phone)) 4)])
    ∧ (∀ ts nowIso fd,
        pyStrip (fd.customer_name.getD "") ≠ "" →
        pyStrip (fd.customer_phone.getD "") ≠ "" →
        pyStrip (fd.customer_address.getD "") ≠ "" →
        ((handle_confirmation_screen ts nowIso fd).2.map (fun d => d._id))
          = ["LOM-" ++ ts ++ "-" ++ pyTakeRight (pyStrip (fd.customer_phone.getD "")) 4])
    ∧ (∀ db genId nowIso store text_body phone,
        (currentSession store phone).state = ChatState.confirm_order →
        normalize_text text_body ∈ ["1", "yes", "y"] →
        ((handle_user_message db genId nowIso store text_body phone).orders.map
          (fun o => o.order_id)) = [genId]) := by
  refine ⟨fun ts nowIso od => ?_, fun ts nowIso fd h1 h2 h3 => ?_,
    fun db genId nowIso store text_body phone hstate hmem => ?_⟩
  · simp [create_order_from_flow]
  · simp [handle_confirmation_screen, h1, h2, h3]
  · have hcsel : ¬ (currentSession store phone).state = ChatState.select_language := by
      rw [hstate]; decide
    have hcidle : ¬ (currentSession store phone).state = ChatState.idle := by
      rw [hstate]; decide
    have hcshow : ¬ (currentSession store phone).state = ChatState.show_menu := by
      rw [hstate]; decide
    have hcdeal : ¬ (currentSession store phone).state = ChatState.pick_deal := by
      rw [hstate]; decide
    have hcitem : ¬ (currentSession store phone).state = ChatState.pick_item := by
      rw [hstate]; decide
    have hcsize : ¬ (currentSession store phone).state = ChatState.pick_size := by
      rw [hstate]; decide
    have hcqty : ¬ (currentSession store phone).state = ChatState.pick_qty := by
      rw [hstate]; decide
    have hcam : ¬ (currentSession store phone).state = ChatState.add_more := by
      rw [hstate]; decide
    have hcan : ¬ (currentSession store phone).state = ChatState.ask_name := by
      rw [hstate]; decide
    have hcaa : ¬ (currentSession store phone).state = ChatState.ask_address := by
      rw [hstate]; decide
    simp only [List.mem_cons, List.not_mem_nil, or_false] at hmem
    rcases hmem with h | h | h <;>
      (simp only [handle_user_message, st_confirm_order, hstate, h]
       simp [hcsel, hcidle, hcshow, hcdeal, hcitem, hcsize, hcqty, hcam, hcan, hcaa,
         restartKeywords, greetKeywords])

/-- C7 witness: the flow-side formats at concrete inputs. -/
theorem C7_order_id_formats_witness :
    ((create_order_from_flow "20250101120000" "iso"
        { customer_phone := "+92 300 1234567", customer_name := "Ali",
          customer_address := "Chak 117", delivery_notes := "", cart_items := [],
          subtotal := 0, discount := 0, tax := 0, total := 0,
          payment_method := "cod", promo_code := "" }).2.map (fun d => d._id))
      = ["LOM-20250101120000-4567"]
    ∧ ((handle_confirmation_screen "20250101120000" "iso"
        { customer_name := some "Ali", customer_phone := some "923001234567",
          customer_address := some "Chak 117" }).2.map (fun d => d._id))
      = ["LOM-20250101120000-4567"]
    ∧ ((create_order_from_flow "20250101120000" "iso"
        { customer_phone := "", customer_name := "", customer_address := "",
          delivery_notes := "", cart_items := [], subtotal := 0, discount := 0,
          tax := 0, total := 0, payment_method := "cod", promo_code := "" }).2.map
        (fun d => d._id))
      = ["LOM-20250101120000-0000"] := by
  refine ⟨?_, ?_, ?_⟩ <;> decide

/-! ## C9: confirmation validation -/

/-- C9: in the flow-manager CONFIRMATION handler, an empty (after trimming)
customer name, phone or address yields `next_screen = CONFIRMATION` with the
error message and inserts no order document. -/
theorem C9_confirmation_required_fields (ts nowIso : String) (fd : FMFormData)
    (h : pyStrip (fd.customer_name.getD "") = "" ∨ pyStrip (fd.customer_phone.getD "") = ""
        ∨ pyStrip (fd.customer_address.getD "") = "") :
    handle_confirmation_screen ts nowIso fd =
      (⟨some "CONFIRMATION", JVal.jobj [("error", JVal.jstr "Please fill all required fields")]⟩,
       []) := by
  unfold handle_confirmation_screen
  rw [if_pos h]

/-- A confirmation submission whose name is only whitespace. -/
def blankNameForm : FMFormData :=
  { customer_name := some "   "
    customer_phone := some "92300"
    customer_address := some "Chak 117" }

/-- C9 witness: the rejection at a concrete submission with a blank name. -/
theorem C9_confirmation_required_fields_witness :
    (pyStrip (blankNameForm.customer_name.getD "") = ""
      ∨ pyStrip (blankNameForm.customer_phone.getD "") = ""
      ∨ pyStrip (blankNameForm.customer_address.getD "") = "")
    ∧ handle_confirmation_screen "ts" "iso" blankNameForm =
      (⟨some "CONFIRMATION", JVal.jobj [("error", JVal.jstr "Please fill all required fields")]⟩,
       []) :=
  ⟨Or.inl (by decide),
   C9_confirmation_required_fields "ts" "iso" blankNameForm (Or.inl (by decide))⟩

/-! ## C10: totals stored as supplied -/

/-- An order whose supplied total disagrees with its cart line totals. -/
def mismatchOrderData : OrderData :=
  { customer_phone := "923001234567", customer_name := "Ali", customer_address := "Chak 117",
    delivery_notes := "", cart_items := [{ item_total := some 100 }],
    subtotal := 100, discount := 0, tax := 0, total := 999,
    payment_method := "cod", promo_code := "" }

/-- C10: the flow CONFIRMATION order persists subtotal, discount, tax and
total exactly as supplied in the decrypted form data (each defaulting to 0
when absent), never recomputing them from the cart items — so a client can
store a total (999) that differs from the sum of its cart line totals
(100). -/
theorem C10_totals_as_supplied :
    (∀ ts nowIso od,
      ((create_order_from_flow ts nowIso od).2.map
        (fun d => (d.subtotal, d.discount, d.tax, d.total_price)))
        = [(od.subtotal, od.discount, od.tax, od.total)])
    ∧ (∀ p rsa jl db now ts nowIso body msg key iv,
        decrypt_request p rsa jl body = some (msg, key, iv) →
        msg.action = some "data_exchange" →
        msg.screen = some "CONFIRMATION" →
        pyStrip (msg.data.customer_phone.getD "") ≠ "" →
        ((whatsapp_flow_endpoint p rsa jl db now ts nowIso body).2.map
          (fun d => (d.subtotal, d.discount, d.tax, d.total_price)))
          = [(msg.data.subtotal.getD 0, msg.data.discount.getD 0,
              msg.data.tax.getD 0, msg.data.total.getD 0)])
    ∧ ((create_order_from_flow "ts" "iso" mismatchOrderData).2.map (fun d => d.total_price)
        = [999]
      ∧ (create_order_from_flow "ts" "iso" mismatchOrderData).2.map
          (fun d => (d.cart_items.map (fun ci => ci.item_total.getD 0)).sum)
        = [100]
      ∧ (999 : ℚ) ≠ 100) := by
  refine ⟨fun ts nowIso od => by simp [create_order_from_flow],
    fun p rsa jl db now ts nowIso body msg key iv hdec hact hscr hphone => ?_,
    by decide, by simp [create_order_from_flow, mismatchOrderData], by norm_num⟩
  simp [whatsapp_flow_endpoint, hdec, hact, hscr, hphone, create_order_from_flow]

end WhatsAppBot
